import Mathlib

/-
Verification of the deployment-freezer reconciliation engine.

The Go sources are shallowly embedded as pure Lean functions:

* `api/v1alpha1/deploymentfreezer_types.go` — the DFZ data model
  (phases, condition types/statuses/reasons, status shape);
* `internal/controller/helpers.go` — `setPhase`, `phaseForNotFound`,
  `setCondition`, `hashTemplate`, `removeString`;
* the ops file — `patchDeploymentReplicas`, `patchDeploymentAnno`,
  `ensureFinalizer`, `removeFinalizer`, `ensureTemplateHashAnno`,
  `reconcileDelete`;
* the controller file — `Reconcile` (load, finalizer/deletion branch,
  target validation and fetch, UID pinning, template hash,
  observed generation, phase router);
* the phase-handler file — `handlePendingOrFreezing`, `handleFrozen`,
  `handleUnfreezing`.

Modelling decisions, stated once here:
* Kubernetes API reads and writes are represented by an `ApiEnv` record of
  `Option String` outcomes (`none` = the call succeeds, `some e` = it fails
  with error text `e`); each call site consults its own field, mirroring
  `retry.RetryOnConflict` returning the final error verbatim.
* The wall clock `r.now()` is an explicit `now : Nat` parameter (seconds);
  `metav1.Time` values become `Nat`, requeue durations become seconds
  (`requeueShort` = 2, `requeueMedium` = 5, `time.Until(t)` = `t - now`
  as an `Int`).
* Go string maps used for annotations become association lists with
  map semantics (`annoGet` defaults to `""` exactly as Go map indexing).
* `sha256` inside `hashTemplate` is abstracted by an executable digest
  `hexDigest` of the concatenated `Fprintf "%v"` renderings. Go's `%v`
  prints the nested pointer fields of `Template.Spec` and `Strategy`
  (e.g. `TerminationGracePeriodSeconds`, `SecurityContext`,
  `RollingUpdate`) as memory addresses, so the renderings are not a
  function of the template value alone; the `Deployment` model keeps the
  value part of each rendering (`templateSpec`, `templateLabels`,
  `strategy`) and the per-fetch address component (`fetchAddrs`) as
  separate fields, and `hashTemplate` digests both. A re-fetch or
  `DeepCopy` with different addresses therefore hashes differently,
  exactly as the code does: the repository's e2e happy path observes the
  resulting spurious `SpecChangedDuringFreeze` condition on an unchanged
  template.
* The Go nil-pointer dereferences `*dfz.Status.OriginalReplicas` and
  `dfz.Status.FreezeUntil.Time` are modelled with `Option.getD`; the
  reachability invariant proved for claim C4 shows the defaults are
  never taken on engine-reachable states.
* `commitStatus` (status.go) deep-compares and writes the status snapshot
  back; it never changes the in-memory objects, so it does not appear in
  the functional model.
-/

namespace DeploymentFreezer

/-- `Phase` from the API types; `empty` stands for the Go empty string. -/
inductive Phase
  | empty
  | Pending
  | Freezing
  | Frozen
  | Unfreezing
  | Completed
  | Denied
  | Aborted
deriving DecidableEq, Repr

/-- `ConditionType` enumeration from the API types. -/
inductive ConditionType
  | TargetFound
  | Ownership
  | FreezeProgress
  | UnfreezeProgress
  | Health
  | SpecChangedDuringFreeze
deriving DecidableEq, Repr

/-- `ConditionStatus` enumeration from the API types. -/
inductive ConditionStatus
  | True
  | False
  | Unknown
deriving DecidableEq, Repr

/-- `ConditionReason` values; restricted to the reasons the engine emits. -/
inductive ConditionReason
  | NotFound
  | UIDMismatch
  | Acquired
  | DeniedAlreadyFrozen
  | Lost
  | Released
  | ScalingDown
  | ScaledToZero
  | AwaitingPDB
  | ScaledUp
  | QuotaExceeded
  | APIConflict
  | Observed
deriving DecidableEq, Repr

/-- A status condition (`Condition` in the API types);
`lastTransitionTime` is a `Nat` timestamp. -/
structure Condition where
  type : ConditionType
  status : ConditionStatus
  reason : ConditionReason
  message : String
  lastTransitionTime : Nat
deriving DecidableEq, Repr

/-- `StatusTargetRef`: the pinned name and UID of the target. -/
structure StatusTargetRef where
  name : String
  uid : String
deriving DecidableEq, Repr

/-- `DeploymentFreezerStatus`. -/
structure DFZStatus where
  phase : Phase
  observedGeneration : Nat
  targetRef : StatusTargetRef
  originalReplicas : Option Int
  freezeUntil : Option Nat
  conditions : List Condition
deriving DecidableEq, Repr

/-- The DeploymentFreezer object: identity, spec fields used by the engine,
metadata the engine reads or writes, and the status subresource. -/
structure DFZ where
  namespc : String
  name : String
  targetName : String
  durationSeconds : Nat
  generation : Nat
  annos : List (String × String)
  finalizers : List String
  deleting : Bool
  status : DFZStatus
deriving DecidableEq, Repr

/-- The target Deployment: the fields the engine reads and writes.
`templateSpec`, `templateLabels` and `strategy` are the value parts of the
`%v` renderings that `hashTemplate` consumes. Go's `%v` prints the nested
pointer fields of `Template.Spec` and `Strategy` (for example
`TerminationGracePeriodSeconds`, `SecurityContext`, `RollingUpdate`) as
memory addresses, so the renderings also carry an address-dependent
component that changes across `DeepCopy` or a fresh fetch of the same
object; `fetchAddrs` records that component. -/
structure Deployment where
  name : String
  namespc : String
  uid : String
  specReplicas : Option Int
  annos : List (String × String)
  statusReplicas : Int
  readyReplicas : Int
  availableReplicas : Int
  updatedReplicas : Int
  templateSpec : String
  templateLabels : String
  strategy : String
  fetchAddrs : String
deriving DecidableEq, Repr

/-- Event type of `record.EventRecorder` calls. -/
inductive EvType
  | Normal
  | Warning
deriving DecidableEq, Repr

/-- An emitted event (type and reason; messages are not modelled). -/
structure Event where
  etype : EvType
  reason : String
deriving DecidableEq, Repr

/-- `ctrl.Result`: `requeueAfter = none` is the zero result. -/
structure CtrlResult where
  requeueAfter : Option Int
deriving DecidableEq, Repr

/-- Outcomes of the API calls a single reconcile can make:
`none` = success, `some e` = failure with error text `e`. -/
structure ApiEnv where
  finalizerPatchErr : Option String
  removeFinalizerErr : Option String
  deployReadErr : Option String
  hashPatchErr : Option String
  annoPatchErr : Option String
  replicasPatchErr : Option String
deriving DecidableEq, Repr

/-- Result of one reconcile: the updated DFZ, the resulting target state,
the controller result, whether an error was returned, and emitted events. -/
structure RecOut where
  dfz : DFZ
  deploy : Option Deployment
  result : CtrlResult
  isError : Bool
  events : List Event
deriving DecidableEq, Repr

/-! ### Constants (controller file) -/

def finalizerName : String := "apps.boolfixer.dev/finalizer"

def annoFrozenBy : String := "apps.boolfixer.dev/frozen-by"

def annoTemplateHash : String := "apps.boolfixer.dev/template-hash"

def requeueShort : Int := 2

def requeueMedium : Int := 5

def defaultReplicasCount : Int := 1

/-! ### Message catalog (messages file) -/

def msgSpecTargetEmpty : String := "spec.targetRef.name is empty"

def msgTargetDeploymentNotExist : String := "Target Deployment does not exist"

def msgReadErrorFmt (e : String) : String := "read error: " ++ e

def msgUIDRecreated : String :=
  "Deployment was recreated with a different UID during the freeze lifecycle"

def msgTemplateHashPatchFailedFmt (e : String) : String :=
  "template hash patch failed: " ++ e

def msgDeploymentAlreadyOwnedFmt (s : String) : String :=
  "Deployment is already owned by " ++ s

def msgOwnershipAcquiredFmt (dfzName ns name : String) : String :=
  "DFZ " ++ dfzName ++ " owns Deployment " ++ ns ++ "/" ++ name

def msgOwnershipAlreadyHeld : String := "Ownership already held"

def msgOwnershipAnnotationLost : String :=
  "Ownership annotation disappeared or was overwritten"

def msgOwnershipReleasedAfterUnfreeze : String :=
  "Ownership released after unfreeze"

def msgCannotScaleDownYetFmt (e : String) : String :=
  "cannot scale down yet: " ++ e

def msgScalingDeploymentToZero : String := "Scaling Deployment to 0"

def msgDeploymentFullyScaledToZero : String :=
  "Deployment is fully scaled to zero"

def msgWaitingDeploymentReachZero : String :=
  "Waiting for Deployment to reach zero replicas"

def msgFailedRestoreReplicasFmt (n : Int) (e : String) : String :=
  "failed to restore replicas to " ++ toString n ++ ": " ++ e

def msgFailedClearOwnershipFmt (e : String) : String :=
  "failed to clear ownership: " ++ e

def msgDeploymentRestoredReplicasFmt (n : Int) : String :=
  "Deployment restored to " ++ toString n ++ " replicas"

def msgSpecChangedDuringFreeze : String :=
  "Target Deployment's pod template changed during the lifecycle"

/-! ### Event reason constants (events file) -/

def ReasonOwnershipDenied : String := "OwnershipDenied"

def ReasonFrozen : String := "Frozen"

def ReasonOwnershipLost : String := "OwnershipLost"

def ReasonUnfreezingStarted : String := "UnfreezingStarted"

def ReasonUnfreezeCompleted : String := "UnfreezeCompleted"

def ReasonReleaseSkippedNoTarget : String := "ReleaseSkippedNoTarget"

def ReasonReleaseSkippedNotFound : String := "ReleaseSkippedNotFound"

def ReasonReleaseSkippedNotOwner : String := "ReleaseSkippedNotOwner"

def ReasonReleaseRestoreFailed : String := "ReleaseRestoreReplicasFailed"

def ReasonReleaseRestored : String := "ReleaseReplicasRestored"

def ReasonReleaseClearOwnershipFailed : String := "ReleaseClearOwnershipFailed"

def ReasonReleaseOwnershipCleared : String := "ReleaseOwnershipCleared"

/-! ### Annotation maps (Go `map[string]string` as association lists) -/

/-- Go map indexing with the zero-value default: `m[key]`. -/
def annoGet (annos : List (String × String)) (key : String) : String :=
  match annos.find? (fun p => p.1 == key) with
  | some p => p.2
  | none => ""

/-- Go two-valued map lookup: `_, ok := m[key]`. -/
def annoHas (annos : List (String × String)) (key : String) : Bool :=
  (annos.find? (fun p => p.1 == key)).isSome

/-- Go map assignment `m[key] = val`. -/
def annoSet (annos : List (String × String)) (key val : String) :
    List (String × String) :=
  if annoHas annos key then
    annos.map (fun p => if p.1 == key then (key, val) else p)
  else
    annos ++ [(key, val)]

/-- Go `delete(m, key)`. -/
def annoDel (annos : List (String × String)) (key : String) :
    List (String × String) :=
  annos.filter (fun p => p.1 != key)

/-! ### helpers.go -/

/-- `setPhase`: plain assignment of `dfz.Status.Phase`. -/
def setPhase (dfz : DFZ) (phase : Phase) : DFZ :=
  { dfz with status := { dfz.status with phase := phase } }

/-- `phaseForNotFound`: `Pending` if we never started, else `Aborted`. -/
def phaseForNotFound (dfz : DFZ) : Phase :=
  match dfz.status.phase with
  | Phase.Pending => Phase.Pending
  | Phase.empty => Phase.Pending
  | _ => Phase.Aborted

/-- The loop body of `setCondition`: find the first condition of the same
type; replace it when `(status, reason, message)` differ, otherwise refresh
its transition time; append when no condition of the type exists. -/
def upsertCond (now : Nat) (newC : Condition) :
    List Condition → List Condition
  | [] => [newC]
  | c :: rest =>
    if c.type = newC.type then
      (if c.status ≠ newC.status ∨ c.reason ≠ newC.reason ∨
          c.message ≠ newC.message then
        newC
      else
        { c with lastTransitionTime := now }) :: rest
    else
      c :: upsertCond now newC rest

/-- `setCondition` from helpers.go, with the injected clock explicit. -/
def setCondition (now : Nat) (dfz : DFZ) (condType : ConditionType)
    (condStatus : ConditionStatus) (condReason : ConditionReason)
    (message : String) : DFZ :=
  let newC : Condition := ⟨condType, condStatus, condReason, message, now⟩
  { dfz with status :=
    { dfz.status with conditions := upsertCond now newC dfz.status.conditions } }

/-- Executable stand-in for the SHA-256 hex digest in `hashTemplate`:
a deterministic, never-empty function of its string input (SHA-256 hex
digests are 64 characters, so never the empty string). -/
def hexDigest (s : String) : String :=
  "x" ++
    toString (s.data.foldl (fun h c => (h * 131 + c.toNat) % 1000000007) 7)

/-- `hashTemplate`: digest of the three `Fprintf "%v"` renderings — the
pod template spec, the pod template labels and the rollout strategy.
Because `%v` prints nested pointer fields as memory addresses, the
renderings include the per-fetch address component `fetchAddrs`, so the
digest is a function of the rendered strings, not of the template value
alone: a `DeepCopy` or re-fetch of an unchanged Deployment generally
hashes differently. -/
def hashTemplate (d : Deployment) : String :=
  hexDigest (d.templateSpec ++ "|" ++ d.templateLabels ++ "|" ++
    d.strategy ++ "#" ++ d.fetchAddrs)

/-- `removeString`: drop every occurrence of `s`. -/
def removeString (sl : List String) (s : String) : List String :=
  sl.filter (fun x => x != s)

/-! ### The ops file: patch operations against the API -/

/-- `patchDeploymentReplicas`: on success the live Deployment's
`spec.replicas` becomes `some replicas`. -/
def patchDeploymentReplicas (env : ApiEnv) (d : Deployment)
    (replicas : Int) : Except String Deployment :=
  match env.replicasPatchErr with
  | some e => Except.error e
  | none => Except.ok { d with specReplicas := some replicas }

/-- `patchDeploymentAnno`: sets the key when `val` is non-empty,
deletes it when `val` is empty. -/
def patchDeploymentAnno (env : ApiEnv) (d : Deployment)
    (key val : String) : Except String Deployment :=
  match env.annoPatchErr with
  | some e => Except.error e
  | none =>
    if val ≠ "" then
      Except.ok { d with annos := annoSet d.annos key val }
    else
      Except.ok { d with annos := annoDel d.annos key }

/-- `ensureFinalizer`: idempotently append the finalizer token. -/
def ensureFinalizer (env : ApiEnv) (dfz : DFZ) : Except String DFZ :=
  if finalizerName ∈ dfz.finalizers then
    Except.ok dfz
  else
    match env.finalizerPatchErr with
    | some e => Except.error e
    | none => Except.ok { dfz with finalizers := dfz.finalizers ++ [finalizerName] }

/-- `removeFinalizer`: idempotently remove the finalizer token. -/
def removeFinalizer (env : ApiEnv) (dfz : DFZ) : Except String DFZ :=
  if finalizerName ∉ dfz.finalizers then
    Except.ok dfz
  else
    match env.removeFinalizerErr with
    | some e => Except.error e
    | none => Except.ok { dfz with finalizers := removeString dfz.finalizers finalizerName }

/-- The successful effect of `ensureTemplateHashAnno`: first time, remember
the current hash on the DFZ annotations (skipping if the key already exists
on the latest object); afterwards raise
`SpecChangedDuringFreeze=True/Observed` on divergence. -/
def hashStep (now : Nat) (dfz : DFZ) (deploy : Deployment) : DFZ :=
  let tplHash := hashTemplate deploy
  let prevHash := annoGet dfz.annos annoTemplateHash
  if prevHash = "" then
    if annoHas dfz.annos annoTemplateHash then dfz
    else { dfz with annos := annoSet dfz.annos annoTemplateHash tplHash }
  else
    if prevHash ≠ tplHash then
      setCondition now dfz ConditionType.SpecChangedDuringFreeze
        ConditionStatus.True ConditionReason.Observed msgSpecChangedDuringFreeze
    else dfz

/-- `ensureTemplateHashAnno`: `hashStep`, where only the first-time patch
(the `prevHash = ""` path) performs an API write and can fail. -/
def ensureTemplateHashAnno (env : ApiEnv) (now : Nat) (dfz : DFZ)
    (deploy : Deployment) : Except String DFZ :=
  if annoGet dfz.annos annoTemplateHash = "" then
    match env.hashPatchErr with
    | some e => Except.error e
    | none => Except.ok (hashStep now dfz deploy)
  else
    Except.ok (hashStep now dfz deploy)

/-- `reconcileDelete`: best-effort release on the deletion path — skip when
there is no target, it is gone, or it is no longer ours; otherwise restore
replicas and clear the ownership annotation, each best-effort.
No status updates on the delete path. -/
def reconcileDelete (env : ApiEnv) (dfz : DFZ)
    (deploy? : Option Deployment) : RecOut :=
  if dfz.targetName = "" then
    { dfz := dfz, deploy := deploy?, result := ⟨none⟩, isError := false,
      events := [⟨EvType.Normal, ReasonReleaseSkippedNoTarget⟩] }
  else
    match env.deployReadErr with
    | some _ =>
      { dfz := dfz, deploy := deploy?, result := ⟨none⟩, isError := true,
        events := [] }
    | none =>
      match deploy? with
      | none =>
        { dfz := dfz, deploy := none, result := ⟨none⟩, isError := false,
          events := [⟨EvType.Normal, ReasonReleaseSkippedNotFound⟩] }
      | some deploy =>
        let owner := dfz.namespc ++ "/" ++ dfz.name
        if annoGet deploy.annos annoFrozenBy ≠ owner then
          { dfz := dfz, deploy := some deploy, result := ⟨none⟩,
            isError := false,
            events := [⟨EvType.Normal, ReasonReleaseSkippedNotOwner⟩] }
        else
          let replicas := dfz.status.originalReplicas.getD defaultReplicasCount
          let (cur1, evs1) :=
            match patchDeploymentReplicas env deploy replicas with
            | Except.error _ =>
              (deploy, [(⟨EvType.Warning, ReasonReleaseRestoreFailed⟩ : Event)])
            | Except.ok cur => (cur, [⟨EvType.Normal, ReasonReleaseRestored⟩])
          let (cur2, evs2) :=
            match patchDeploymentAnno env cur1 annoFrozenBy "" with
            | Except.error _ =>
              (cur1, [(⟨EvType.Warning, ReasonReleaseClearOwnershipFailed⟩ : Event)])
            | Except.ok cur => (cur, [⟨EvType.Normal, ReasonReleaseOwnershipCleared⟩])
          { dfz := dfz, deploy := some cur2, result := ⟨none⟩,
            isError := false, events := evs1 ++ evs2 }

/-! ### The phase-handler file -/

/-- The "record original replicas" step of `handlePendingOrFreezing`:
capture `target.spec.replicas` when positive, else the default of 1;
never overwrite once set. -/
def recordOriginalReplicas (dfz : DFZ) (snap : Deployment) : DFZ :=
  if dfz.status.originalReplicas = none then
    let replicas :=
      match snap.specReplicas with
      | some v => if v > 0 then v else defaultReplicasCount
      | none => defaultReplicasCount
    { dfz with status := { dfz.status with originalReplicas := some replicas } }
  else dfz

/-- The replicas-calculated event emitted exactly when the record step
writes `originalReplicas`. -/
def recordOriginalReplicasEvents (dfz : DFZ) (evs : List Event) :
    List Event :=
  if dfz.status.originalReplicas = none then
    evs ++ [⟨EvType.Normal, ReasonUnfreezingStarted⟩]
  else evs

/-- The tail of `handlePendingOrFreezing` after ownership arbitration:
record original replicas, scale to zero, drain-verify, or keep waiting.
`snap` is the handler's local `deploy` variable (reads), `cur` the live
object after the ownership patch (writes compose on it). -/
def hpfAfterOwnership (env : ApiEnv) (now : Nat) (dfz : DFZ)
    (snap cur : Deployment) (evs : List Event) : RecOut :=
  let evs := recordOriginalReplicasEvents dfz evs
  let dfz := recordOriginalReplicas dfz snap
  let needScaleDown : Bool :=
    match snap.specReplicas with
    | none => true
    | some v => v ≠ 0
  if needScaleDown then
    match patchDeploymentReplicas env cur 0 with
    | Except.error e =>
      let dfz := setCondition now dfz ConditionType.FreezeProgress
        ConditionStatus.False ConditionReason.AwaitingPDB
        (msgCannotScaleDownYetFmt e)
      let dfz := setPhase dfz Phase.Freezing
      { dfz := dfz, deploy := some cur, result := ⟨some requeueMedium⟩,
        isError := false, events := evs }
    | Except.ok cur2 =>
      let dfz := setCondition now dfz ConditionType.FreezeProgress
        ConditionStatus.False ConditionReason.ScalingDown
        msgScalingDeploymentToZero
      let dfz := setPhase dfz Phase.Freezing
      { dfz := dfz, deploy := some cur2, result := ⟨some requeueShort⟩,
        isError := false, events := evs }
  else
    if snap.statusReplicas = 0 ∧ snap.readyReplicas = 0 ∧
        snap.availableReplicas = 0 ∧ snap.updatedReplicas = 0 then
      let dfz := setCondition now dfz ConditionType.FreezeProgress
        ConditionStatus.True ConditionReason.ScaledToZero
        msgDeploymentFullyScaledToZero
      let dfz := setPhase dfz Phase.Frozen
      let untl := now + dfz.durationSeconds
      let dfz := { dfz with status := { dfz.status with freezeUntil := some untl } }
      { dfz := dfz, deploy := some cur,
        result := ⟨some ((untl : Int) - (now : Int))⟩,
        isError := false,
        events := evs ++ [⟨EvType.Normal, ReasonFrozen⟩] }
    else
      let dfz := setCondition now dfz ConditionType.FreezeProgress
        ConditionStatus.False ConditionReason.ScalingDown
        msgWaitingDeploymentReachZero
      let dfz := setPhase dfz Phase.Freezing
      { dfz := dfz, deploy := some cur, result := ⟨some requeueShort⟩,
        isError := false, events := evs }

/-- `handlePendingOrFreezing`: ownership arbitration, then the freeze
pipeline via `hpfAfterOwnership`. -/
def handlePendingOrFreezing (env : ApiEnv) (now : Nat) (dfz : DFZ)
    (deploy : Deployment) : RecOut :=
  let owner := dfz.namespc ++ "/" ++ dfz.name
  let frozenBy := annoGet deploy.annos annoFrozenBy
  if frozenBy ≠ "" ∧ frozenBy ≠ owner then
    let dfz := setCondition now dfz ConditionType.Ownership
      ConditionStatus.False ConditionReason.DeniedAlreadyFrozen
      (msgDeploymentAlreadyOwnedFmt frozenBy)
    let dfz := setPhase dfz Phase.Denied
    { dfz := dfz, deploy := some deploy, result := ⟨none⟩, isError := false,
      events := [⟨EvType.Warning, ReasonOwnershipDenied⟩] }
  else
    if frozenBy ≠ owner then
      match patchDeploymentAnno env deploy annoFrozenBy owner with
      | Except.error e =>
        let dfz := setCondition now dfz ConditionType.Health
          ConditionStatus.False ConditionReason.APIConflict
          (msgCannotScaleDownYetFmt e)
        { dfz := dfz, deploy := some deploy, result := ⟨some requeueShort⟩,
          isError := false, events := [] }
      | Except.ok cur =>
        let dfz := setCondition now dfz ConditionType.Ownership
          ConditionStatus.True ConditionReason.Acquired
          (msgOwnershipAcquiredFmt dfz.name deploy.namespc deploy.name)
        hpfAfterOwnership env now dfz deploy cur []
    else
      let dfz := setCondition now dfz ConditionType.Ownership
        ConditionStatus.True ConditionReason.Acquired
        msgOwnershipAlreadyHeld
      hpfAfterOwnership env now dfz deploy deploy []

/-- `handleFrozen`: enforce ownership, then wait out or pass the deadline.
`Option.getD 0` models the Go dereference of `dfz.Status.FreezeUntil`. -/
def handleFrozen (env : ApiEnv) (now : Nat) (dfz : DFZ)
    (deploy : Deployment) : RecOut :=
  let owner := dfz.namespc ++ "/" ++ dfz.name
  let frozenBy := annoGet deploy.annos annoFrozenBy
  if frozenBy ≠ owner then
    let dfz := setCondition now dfz ConditionType.Ownership
      ConditionStatus.False ConditionReason.Lost msgOwnershipAnnotationLost
    let dfz := setPhase dfz Phase.Aborted
    { dfz := dfz, deploy := some deploy, result := ⟨none⟩, isError := false,
      events := [⟨EvType.Warning, ReasonOwnershipLost⟩] }
  else
    if now < dfz.status.freezeUntil.getD 0 then
      { dfz := dfz, deploy := some deploy,
        result := ⟨some ((dfz.status.freezeUntil.getD 0 : Int) - (now : Int))⟩,
        isError := false, events := [] }
    else
      let dfz := setPhase dfz Phase.Unfreezing
      { dfz := dfz, deploy := some deploy, result := ⟨some requeueShort⟩,
        isError := false,
        events := [⟨EvType.Normal, ReasonUnfreezingStarted⟩] }

/-- `handleUnfreezing`: restore replicas, clear ownership, complete.
`Option.getD 0` models the Go dereference of `dfz.Status.OriginalReplicas`. -/
def handleUnfreezing (env : ApiEnv) (now : Nat) (dfz : DFZ)
    (deploy : Deployment) : RecOut :=
  let targetReplicas := dfz.status.originalReplicas.getD 0
  let evs : List Event := [⟨EvType.Normal, ReasonUnfreezeCompleted⟩]
  match patchDeploymentReplicas env deploy targetReplicas with
  | Except.error e =>
    let dfz := setCondition now dfz ConditionType.UnfreezeProgress
      ConditionStatus.False ConditionReason.QuotaExceeded
      (msgFailedRestoreReplicasFmt targetReplicas e)
    { dfz := dfz, deploy := some deploy, result := ⟨some requeueMedium⟩,
      isError := false, events := evs }
  | Except.ok cur =>
    match patchDeploymentAnno env cur annoFrozenBy "" with
    | Except.error e =>
      let dfz := setCondition now dfz ConditionType.Health
        ConditionStatus.False ConditionReason.APIConflict
        (msgFailedClearOwnershipFmt e)
      { dfz := dfz, deploy := some cur, result := ⟨some requeueShort⟩,
        isError := false, events := evs }
    | Except.ok cur2 =>
      let dfz := setCondition now dfz ConditionType.UnfreezeProgress
        ConditionStatus.True ConditionReason.ScaledUp
        (msgDeploymentRestoredReplicasFmt targetReplicas)
      let dfz := setCondition now dfz ConditionType.Ownership
        ConditionStatus.False ConditionReason.Released
        msgOwnershipReleasedAfterUnfreeze
      let dfz := setPhase dfz Phase.Completed
      { dfz := dfz, deploy := some cur2, result := ⟨none⟩, isError := false,
        events := evs ++ [⟨EvType.Normal, ReasonUnfreezeCompleted⟩] }

/-! ### The controller file: `Reconcile` -/

/-- Cache the live name and UID into `status.targetRef` when unset. -/
def cacheTargetRef (dfz : DFZ) (deploy : Deployment) : DFZ :=
  if dfz.status.targetRef.uid = "" then
    { dfz with status :=
      { dfz.status with targetRef := ⟨deploy.name, deploy.uid⟩ } }
  else dfz

/-- Record `observedGeneration` when stale. -/
def recordObservedGen (dfz : DFZ) : DFZ :=
  if dfz.status.observedGeneration ≠ dfz.generation then
    { dfz with status :=
      { dfz.status with observedGeneration := dfz.generation } }
  else dfz

/-- An empty phase defaults to `Pending` before routing. -/
def defaultPhasePending (dfz : DFZ) : DFZ :=
  if dfz.status.phase = Phase.empty then setPhase dfz Phase.Pending else dfz

/-- The phase router at the end of `Reconcile`: terminal phases are a
no-op success; the Go `default` arm (short requeue) corresponds to the
dead `empty` case, which `defaultPhasePending` has already rewritten. -/
def routePhase (env : ApiEnv) (now : Nat) (dfz : DFZ)
    (deploy : Deployment) : RecOut :=
  match dfz.status.phase with
  | Phase.Pending => handlePendingOrFreezing env now dfz deploy
  | Phase.Freezing => handlePendingOrFreezing env now dfz deploy
  | Phase.Frozen => handleFrozen env now dfz deploy
  | Phase.Unfreezing => handleUnfreezing env now dfz deploy
  | Phase.Denied =>
    { dfz := dfz, deploy := some deploy, result := ⟨none⟩,
      isError := false, events := [] }
  | Phase.Completed =>
    { dfz := dfz, deploy := some deploy, result := ⟨none⟩,
      isError := false, events := [] }
  | Phase.Aborted =>
    { dfz := dfz, deploy := some deploy, result := ⟨none⟩,
      isError := false, events := [] }
  | Phase.empty =>
    { dfz := dfz, deploy := some deploy, result := ⟨some requeueShort⟩,
      isError := false, events := [] }

/-- The body of `Reconcile` after the finalizer branch: validate the target
name, fetch the target, pin the UID, maintain the template hash, record the
observed generation, and route on the phase. -/
def reconcileBody (env : ApiEnv) (now : Nat) (dfz : DFZ)
    (deploy? : Option Deployment) : RecOut :=
  if dfz.targetName = "" then
    let dfz := setPhase dfz Phase.Denied
    let dfz := setCondition now dfz ConditionType.TargetFound
      ConditionStatus.False ConditionReason.NotFound msgSpecTargetEmpty
    { dfz := dfz, deploy := deploy?, result := ⟨none⟩, isError := false,
      events := [] }
  else
    match env.deployReadErr with
    | some e =>
      let dfz := setCondition now dfz ConditionType.Health
        ConditionStatus.False ConditionReason.APIConflict (msgReadErrorFmt e)
      { dfz := dfz, deploy := deploy?, result := ⟨some requeueShort⟩,
        isError := false, events := [] }
    | none =>
      match deploy? with
      | none =>
        let dfz := setPhase dfz (phaseForNotFound dfz)
        let dfz := setCondition now dfz ConditionType.TargetFound
          ConditionStatus.False ConditionReason.NotFound
          msgTargetDeploymentNotExist
        { dfz := dfz, deploy := none, result := ⟨some requeueMedium⟩,
          isError := false, events := [] }
      | some deploy =>
        if dfz.status.targetRef.uid ≠ "" ∧ deploy.uid ≠ dfz.status.targetRef.uid then
          let dfz := setCondition now dfz ConditionType.TargetFound
            ConditionStatus.False ConditionReason.UIDMismatch msgUIDRecreated
          let dfz := setPhase dfz Phase.Aborted
          { dfz := dfz, deploy := some deploy, result := ⟨none⟩,
            isError := false, events := [] }
        else
          let dfz := cacheTargetRef dfz deploy
          match ensureTemplateHashAnno env now dfz deploy with
          | Except.error e =>
            let dfz := setCondition now dfz ConditionType.Health
              ConditionStatus.False ConditionReason.APIConflict
              (msgTemplateHashPatchFailedFmt e)
            { dfz := dfz, deploy := some deploy,
              result := ⟨some requeueShort⟩, isError := false, events := [] }
          | Except.ok dfz =>
            routePhase env now (defaultPhasePending (recordObservedGen dfz))
              deploy

/-- `Reconcile`: finalizer/deletion branch, then `reconcileBody`.
The initial load of the DFZ is the caller's responsibility (a reconcile of a
vanished DFZ returns the zero result and is not modelled further). -/
def Reconcile (env : ApiEnv) (now : Nat) (dfz0 : DFZ)
    (deploy? : Option Deployment) : RecOut :=
  if dfz0.deleting = false then
    match ensureFinalizer env dfz0 with
    | Except.error _ =>
      { dfz := dfz0, deploy := deploy?, result := ⟨none⟩, isError := true,
        events := [] }
    | Except.ok dfz => reconcileBody env now dfz deploy?
  else
    let out := reconcileDelete env dfz0 deploy?
    if out.isError then out
    else
      match removeFinalizer env out.dfz with
      | Except.error _ =>
        { out with result := ⟨none⟩, isError := true }
      | Except.ok dfz2 =>
        { out with dfz := dfz2, result := ⟨none⟩, isError := false }

/-! ### Derived definitions used by the verification -/

/-- The status-side preamble of a successful reconcile that found the
target: UID caching, template-hash maintenance, observed generation and
the empty-phase default, in source order. -/
def reconcilePrep (now : Nat) (dfz : DFZ) (deploy : Deployment) : DFZ :=
  defaultPhasePending
    (recordObservedGen (hashStep now (cacheTargetRef dfz deploy) deploy))

/-- The projection of a condition that forgets `lastTransitionTime`. -/
def condKey (c : Condition) :
    ConditionType × ConditionStatus × ConditionReason × String :=
  (c.type, c.status, c.reason, c.message)

/-- A DFZ status with `lastTransitionTime` erased from every condition. -/
def stripLTT (st : DFZStatus) :
    Phase × Nat × StatusTargetRef × Option Int × Option Nat ×
      List (ConditionType × ConditionStatus × ConditionReason × String) :=
  (st.phase, st.observedGeneration, st.targetRef, st.originalReplicas,
   st.freezeUntil, st.conditions.map condKey)

/-- Conditions other than the advisory `SpecChangedDuringFreeze`. -/
def notSpecChanged (c : Condition) : Bool :=
  decide (c.type ≠ ConditionType.SpecChangedDuringFreeze)

/-- A DFZ status with `lastTransitionTime` erased from every condition and
the advisory `SpecChangedDuringFreeze` condition disregarded: the
address-dependent template digest can raise that condition on any
reconcile that re-fetches the target, so status stability across repeated
reconciles holds only up to it. -/
def stripLTTSpec (st : DFZStatus) :
    Phase × Nat × StatusTargetRef × Option Int × Option Nat ×
      List (ConditionType × ConditionStatus × ConditionReason × String) :=
  (st.phase, st.observedGeneration, st.targetRef, st.originalReplicas,
   st.freezeUntil, (st.conditions.filter notSpecChanged).map condKey)

/-- Decidable equality of condition keys, registered so that equality of
stripped statuses can be decided by evaluation. -/
instance : DecidableEq
    (ConditionType × ConditionStatus × ConditionReason × String) :=
  instDecidableEqProd

/-- Decidable equality of stripped statuses. -/
instance : DecidableEq
    (Phase × Nat × StatusTargetRef × Option Int × Option Nat ×
      List (ConditionType × ConditionStatus × ConditionReason × String)) :=
  instDecidableEqProd

/-- The DFZ has a condition with the given type, status, reason, message. -/
def hasCond (dfz : DFZ) (t : ConditionType) (s : ConditionStatus)
    (r : ConditionReason) (m : String) : Prop :=
  ∃ c ∈ dfz.status.conditions, c.type = t ∧ c.status = s ∧ c.reason = r ∧
    c.message = m

/-- The status invariants of spec §3 (invariants 1 and 2): `Frozen` and
`Unfreezing` imply `originalReplicas` is set, and `Frozen` implies
`freezeUntil` is set. -/
def StatusInv (dfz : DFZ) : Prop :=
  ((dfz.status.phase = Phase.Frozen ∨ dfz.status.phase = Phase.Unfreezing) →
    dfz.status.originalReplicas ≠ none) ∧
  (dfz.status.phase = Phase.Frozen → dfz.status.freezeUntil ≠ none)

/-- DFZ states reachable by the engine: a freshly created DFZ has an empty
status phase; the engine advances the status only through `Reconcile`;
other clients may edit spec and metadata but never the status
subresource. -/
inductive EngineReach : DFZ → Prop
  | init (dfz : DFZ) : dfz.status.phase = Phase.empty → EngineReach dfz
  | step (dfz : DFZ) (env : ApiEnv) (now : Nat)
      (deploy? : Option Deployment) : EngineReach dfz →
      EngineReach (Reconcile env now dfz deploy?).dfz
  | specEdit (dfz dfz' : DFZ) : EngineReach dfz →
      dfz'.status = dfz.status → EngineReach dfz'

/-! ### Concrete sample objects used by witnesses and counterexamples -/

/-- All API calls succeed. -/
def envEx : ApiEnv := ⟨none, none, none, none, none, none⟩

/-- A freshly created DFZ `default/freeze-demo` targeting `demo-deploy`. -/
def dfzEx : DFZ :=
  ⟨"default", "freeze-demo", "demo-deploy", 5, 1, [], [], false,
   ⟨Phase.empty, 0, ⟨"", ""⟩, none, none, []⟩⟩

/-- A healthy target Deployment with three replicas. -/
def depEx : Deployment :=
  ⟨"demo-deploy", "default", "u1", some 3, [], 3, 3, 3, 3, "ts", "lb", "st", "0xa"⟩

/-- The sample DFZ after a completed freeze cycle: phase `Completed`,
target pinned, original replica count and a past `freezeUntil` recorded,
finalizer present. -/
def dfzTermEx : DFZ :=
  ⟨"default", "freeze-demo", "demo-deploy", 5, 1, [],
   ["apps.boolfixer.dev/finalizer"], false,
   ⟨Phase.Completed, 1, ⟨"demo-deploy", "u1"⟩, some 3, some 1, []⟩⟩

/-- A fresh DFZ with a caller-chosen freeze duration, for the round-trip
law of claim C2. -/
def cycleDFZ (d : Nat) : DFZ :=
  ⟨"default", "freeze-demo", "demo-deploy", d, 1, [], [], false,
   ⟨Phase.empty, 0, ⟨"", ""⟩, none, none, []⟩⟩

/-- A target Deployment running `k` replicas, for claim C2. -/
def cycleDeploy (k : Int) : Deployment :=
  ⟨"demo-deploy", "default", "u1", some k, [], k, k, k, k, "ts", "lb", "st", "0xa"⟩

/-- The external drain between reconciles: the Deployment's status
counters catch up with `spec.replicas = 0`. -/
def drained (dep : Deployment) : Deployment :=
  { dep with
    statusReplicas := 0
    readyReplicas := 0
    availableReplicas := 0
    updatedReplicas := 0 }

/-- Reconcile #1 of the freeze/unfreeze cycle: fresh DFZ, live target. -/
def cycleR1 (k : Int) (d : Nat) : RecOut :=
  Reconcile envEx 0 (cycleDFZ d) (some (cycleDeploy k))

/-- Reconcile #2, after the target has drained to zero. -/
def cycleR2 (k : Int) (d : Nat) : RecOut :=
  Reconcile envEx 1 (cycleR1 k d).dfz
    (some (drained ((cycleR1 k d).deploy.getD (cycleDeploy k))))

/-- Reconcile #3, at the freeze deadline `1 + d`. -/
def cycleR3 (k : Int) (d : Nat) : RecOut :=
  Reconcile envEx (1 + d) (cycleR2 k d).dfz (cycleR2 k d).deploy

/-- Reconcile #4, after the deadline. -/
def cycleR4 (k : Int) (d : Nat) : RecOut :=
  Reconcile envEx (2 + d) (cycleR3 k d).dfz (cycleR3 k d).deploy

/-! ### Basic lemmas about the embedded operations -/

@[simp]
theorem setCondition_phase (now : Nat) (dfz : DFZ) (t : ConditionType)
    (s : ConditionStatus) (r : ConditionReason) (m : String) :
    (setCondition now dfz t s r m).status.phase = dfz.status.phase := rfl

@[simp]
theorem setCondition_originalReplicas (now : Nat) (dfz : DFZ)
    (t : ConditionType) (s : ConditionStatus) (r : ConditionReason)
    (m : String) :
    (setCondition now dfz t s r m).status.originalReplicas =
      dfz.status.originalReplicas := rfl

@[simp]
theorem setCondition_freezeUntil (now : Nat) (dfz : DFZ)
    (t : ConditionType) (s : ConditionStatus) (r : ConditionReason)
    (m : String) :
    (setCondition now dfz t s r m).status.freezeUntil =
      dfz.status.freezeUntil := rfl

@[simp]
theorem setPhase_phase (dfz : DFZ) (p : Phase) :
    (setPhase dfz p).status.phase = p := rfl

@[simp]
theorem setPhase_originalReplicas (dfz : DFZ) (p : Phase) :
    (setPhase dfz p).status.originalReplicas =
      dfz.status.originalReplicas := rfl

@[simp]
theorem setPhase_freezeUntil (dfz : DFZ) (p : Phase) :
    (setPhase dfz p).status.freezeUntil = dfz.status.freezeUntil := rfl

@[simp]
theorem setPhase_conditions (dfz : DFZ) (p : Phase) :
    (setPhase dfz p).status.conditions = dfz.status.conditions := rfl

/-- After `upsertCond`, some condition carries exactly the upserted
type, status, reason and message. -/
theorem upsertCond_mem (now : Nat) (newC : Condition) (cs : List Condition) :
    ∃ c ∈ upsertCond now newC cs, c.type = newC.type ∧
      c.status = newC.status ∧ c.reason = newC.reason ∧
      c.message = newC.message := by
  induction cs with
  | nil => exact ⟨newC, by simp [upsertCond], rfl, rfl, rfl, rfl⟩
  | cons d rest ih =>
    by_cases hd : d.type = newC.type
    · by_cases hdiff : d.status ≠ newC.status ∨ d.reason ≠ newC.reason ∨
          d.message ≠ newC.message
      · exact ⟨newC, by simp [upsertCond, hd, hdiff], rfl, rfl, rfl, rfl⟩
      · push_neg at hdiff
        obtain ⟨h1, h2, h3⟩ := hdiff
        refine ⟨{ d with lastTransitionTime := now }, ?_, hd, h1, h2, h3⟩
        simp [upsertCond, hd, h1, h2, h3]
    · obtain ⟨c, hm, hp⟩ := ih
      refine ⟨c, ?_, hp⟩
      simp only [upsertCond, if_neg hd, List.mem_cons]
      exact Or.inr hm

/-- `upsertCond` keeps every condition of a different type. -/
theorem upsertCond_mem_of_ne (now : Nat) (newC c : Condition)
    (cs : List Condition) (hc : c ∈ cs) (hne : c.type ≠ newC.type) :
    c ∈ upsertCond now newC cs := by
  induction cs with
  | nil => cases hc
  | cons d rest ih =>
    rcases List.mem_cons.mp hc with hceq | hcr
    · subst hceq
      simp only [upsertCond, if_neg hne]
      exact List.mem_cons_self c (upsertCond now newC rest)
    · by_cases hd : d.type = newC.type
      · simp only [upsertCond, if_pos hd, List.mem_cons]
        exact Or.inr hcr
      · simp only [upsertCond, if_neg hd, List.mem_cons]
        exact Or.inr (ih hcr)

/-- When no condition of the type exists, `upsertCond` appends at the end. -/
theorem upsertCond_append (now : Nat) (newC : Condition)
    (cs : List Condition) (h : ∀ c ∈ cs, c.type ≠ newC.type) :
    upsertCond now newC cs = cs ++ [newC] := by
  induction cs with
  | nil => simp [upsertCond]
  | cons d rest ih =>
    have hd : d.type ≠ newC.type := h d (List.mem_cons_self d rest)
    simp only [upsertCond, if_neg hd, List.cons_append, List.cons.injEq,
      true_and]
    exact ih (fun c hc => h c (List.mem_cons_of_mem d hc))

/-- `upsertCond` replaces or refreshes the FIRST condition of the type,
in place, leaving everything before and after untouched. -/
theorem upsertCond_replace (now : Nat) (newC c : Condition)
    (pre post : List Condition) (hpre : ∀ b ∈ pre, b.type ≠ newC.type)
    (hc : c.type = newC.type) :
    upsertCond now newC (pre ++ c :: post) =
      pre ++ (if c.status ≠ newC.status ∨ c.reason ≠ newC.reason ∨
          c.message ≠ newC.message then newC
        else { c with lastTransitionTime := now }) :: post := by
  induction pre with
  | nil => simp [upsertCond, hc]
  | cons b rest ih =>
    have hb : b.type ≠ newC.type := hpre b (List.mem_cons_self b rest)
    simp only [List.cons_append, upsertCond, if_neg hb, List.cons.injEq,
      true_and]
    exact ih (fun x hx => hpre x (List.mem_cons_of_mem b hx))

/-- The list of condition types after `upsertCond`: unchanged when the
type already occurs, the type appended at the end otherwise. -/
theorem upsertCond_types (now : Nat) (newC : Condition)
    (cs : List Condition) :
    (upsertCond now newC cs).map Condition.type =
      if newC.type ∈ cs.map Condition.type then cs.map Condition.type
      else cs.map Condition.type ++ [newC.type] := by
  induction cs with
  | nil => simp [upsertCond]
  | cons d rest ih =>
    by_cases hd : d.type = newC.type
    · by_cases hdiff : d.status ≠ newC.status ∨ d.reason ≠ newC.reason ∨
          d.message ≠ newC.message
      · simp [upsertCond, hd, hdiff]
      · simp [upsertCond, hd, if_neg hdiff]
    · by_cases hmem : newC.type ∈ rest.map Condition.type
      · simp [upsertCond, hd, ih, hmem, Ne.symm hd]
      · simp [upsertCond, hd, ih, hmem, Ne.symm hd]

/-- Re-upserting a condition with the same type, status, reason and
message (the transition times may differ) changes only transition
times. -/
theorem upsertCond_condKey_idem (n1 n2 : Nat) (c1 c2 : Condition)
    (hk : condKey c1 = condKey c2) (cs : List Condition) :
    (upsertCond n2 c2 (upsertCond n1 c1 cs)).map condKey =
      (upsertCond n1 c1 cs).map condKey := by
  obtain ⟨t1, s1, r1, m1, l1⟩ := c1
  obtain ⟨t2, s2, r2, m2, l2⟩ := c2
  obtain ⟨ht, hs, hr, hm⟩ : t1 = t2 ∧ s1 = s2 ∧ r1 = r2 ∧ m1 = m2 := by
    simpa [condKey, Prod.ext_iff] using hk
  subst ht hs hr hm
  induction cs with
  | nil => simp [upsertCond, condKey]
  | cons d rest ih =>
    by_cases hd : d.type = t1
    · by_cases hdiff : d.status ≠ s1 ∨ d.reason ≠ r1 ∨ d.message ≠ m1
      · simp [upsertCond, hd, hdiff, condKey]
      · push_neg at hdiff
        obtain ⟨h1, h2, h3⟩ := hdiff
        simp [upsertCond, hd, h1, h2, h3, condKey]
    · simp only [upsertCond, if_neg hd, List.map_cons, List.cons.injEq,
        true_and]
      exact ih

/-- `setCondition` establishes the condition it upserts. -/
theorem setCondition_hasCond (now : Nat) (dfz : DFZ) (t : ConditionType)
    (s : ConditionStatus) (r : ConditionReason) (m : String) :
    hasCond (setCondition now dfz t s r m) t s r m := by
  obtain ⟨c, hm, hp⟩ := upsertCond_mem now ⟨t, s, r, m, now⟩
    dfz.status.conditions
  exact ⟨c, hm, hp⟩

/-- `setCondition` of a different type preserves existing conditions. -/
theorem hasCond_setCondition_of_ne (now : Nat) (dfz : DFZ)
    (t t' : ConditionType) (s s' : ConditionStatus)
    (r r' : ConditionReason) (m m' : String)
    (h : hasCond dfz t s r m) (hne : t ≠ t') :
    hasCond (setCondition now dfz t' s' r' m') t s r m := by
  obtain ⟨c, hm, hty, hst, hre, hms⟩ := h
  refine ⟨c, ?_, hty, hst, hre, hms⟩
  exact upsertCond_mem_of_ne now _ c dfz.status.conditions hm
    (by rw [hty]; exact hne)

/-- `setPhase` preserves conditions, hence `hasCond`. -/
theorem hasCond_setPhase (dfz : DFZ) (p : Phase) (t : ConditionType)
    (s : ConditionStatus) (r : ConditionReason) (m : String)
    (h : hasCond dfz t s r m) : hasCond (setPhase dfz p) t s r m := h

/-- The digest is never the empty string. -/
theorem hexDigest_ne_empty (s : String) : hexDigest s ≠ "" := by
  intro h
  have := congrArg String.length h
  simp [hexDigest, String.length_append] at this
  exact absurd this.1 (by decide)

/-- `hashTemplate` is never the empty string. -/
theorem hashTemplate_ne_empty (d : Deployment) : hashTemplate d ≠ "" :=
  hexDigest_ne_empty _

/-- Reading back the key just set. -/
theorem annoGet_annoSet_self (annos : List (String × String))
    (key val : String) : annoGet (annoSet annos key val) key = val := by
  unfold annoSet
  by_cases h : annoHas annos key
  · simp only [if_pos h]
    unfold annoGet
    induction annos with
    | nil => simp [annoHas] at h
    | cons p rest ih =>
      by_cases hp : p.1 == key
      · simp [List.find?, hp]
      · have hrest : annoHas rest key := by
          unfold annoHas at h ⊢
          simpa [List.find?, hp] using h
        simpa [List.find?, hp] using ih hrest
  · simp only [if_neg h]
    unfold annoGet
    induction annos with
    | nil => simp [List.find?]
    | cons p rest ih =>
      by_cases hp : p.1 == key
      · exfalso
        apply h
        unfold annoHas
        simp [List.find?, hp]
      · have hrest : ¬ annoHas rest key := by
          intro hr
          apply h
          unfold annoHas at hr ⊢
          simp only [List.find?, hp]
          exact hr
        simpa [List.find?, hp] using ih hrest

/-- `ensureFinalizer` succeeds when the finalizer patch does, and touches
only the finalizer list. -/
theorem ensureFinalizer_ok (env : ApiEnv) (dfz : DFZ)
    (hfin : env.finalizerPatchErr = none) :
    ∃ dfz', ensureFinalizer env dfz = Except.ok dfz' ∧
      dfz' = { dfz with finalizers := dfz'.finalizers } ∧
      finalizerName ∈ dfz'.finalizers := by
  unfold ensureFinalizer
  by_cases h : finalizerName ∈ dfz.finalizers
  · exact ⟨dfz, by simp [h], rfl, h⟩
  · exact ⟨{ dfz with finalizers := dfz.finalizers ++ [finalizerName] },
      by simp [h, hfin], rfl, by simp⟩

/-- An owner key `"<namespace>/<name>"` is never the empty string. -/
theorem owner_ne_empty (a b : String) : a ++ "/" ++ b ≠ "" := by
  intro h
  have hl := congrArg String.length h
  have hs : ("/" : String).length = 1 := rfl
  simp [String.length_append, hs] at hl

/-- With a healthy API, `ensureTemplateHashAnno` is exactly `hashStep`. -/
theorem ensureTemplateHashAnno_ok (env : ApiEnv) (now : Nat) (dfz : DFZ)
    (deploy : Deployment) (hhash : env.hashPatchErr = none) :
    ensureTemplateHashAnno env now dfz deploy =
      Except.ok (hashStep now dfz deploy) := by
  unfold ensureTemplateHashAnno
  split_ifs with h <;> simp [hhash]

/-- `cacheTargetRef` touches only `status.targetRef`. -/
theorem cacheTargetRef_fields (dfz : DFZ) (deploy : Deployment) :
    (cacheTargetRef dfz deploy).namespc = dfz.namespc ∧
    (cacheTargetRef dfz deploy).name = dfz.name ∧
    (cacheTargetRef dfz deploy).targetName = dfz.targetName ∧
    (cacheTargetRef dfz deploy).deleting = dfz.deleting ∧
    (cacheTargetRef dfz deploy).finalizers = dfz.finalizers ∧
    (cacheTargetRef dfz deploy).annos = dfz.annos ∧
    (cacheTargetRef dfz deploy).generation = dfz.generation ∧
    (cacheTargetRef dfz deploy).durationSeconds = dfz.durationSeconds ∧
    (cacheTargetRef dfz deploy).status.phase = dfz.status.phase ∧
    (cacheTargetRef dfz deploy).status.originalReplicas =
      dfz.status.originalReplicas ∧
    (cacheTargetRef dfz deploy).status.freezeUntil =
      dfz.status.freezeUntil ∧
    (cacheTargetRef dfz deploy).status.conditions =
      dfz.status.conditions ∧
    (cacheTargetRef dfz deploy).status.observedGeneration =
      dfz.status.observedGeneration := by
  unfold cacheTargetRef
  split <;> simp

/-- `hashStep` touches only the DFZ annotations and conditions. -/
theorem hashStep_fields (now : Nat) (dfz : DFZ) (deploy : Deployment) :
    (hashStep now dfz deploy).namespc = dfz.namespc ∧
    (hashStep now dfz deploy).name = dfz.name ∧
    (hashStep now dfz deploy).targetName = dfz.targetName ∧
    (hashStep now dfz deploy).deleting = dfz.deleting ∧
    (hashStep now dfz deploy).finalizers = dfz.finalizers ∧
    (hashStep now dfz deploy).generation = dfz.generation ∧
    (hashStep now dfz deploy).durationSeconds = dfz.durationSeconds ∧
    (hashStep now dfz deploy).status.phase = dfz.status.phase ∧
    (hashStep now dfz deploy).status.originalReplicas =
      dfz.status.originalReplicas ∧
    (hashStep now dfz deploy).status.freezeUntil =
      dfz.status.freezeUntil ∧
    (hashStep now dfz deploy).status.targetRef = dfz.status.targetRef ∧
    (hashStep now dfz deploy).status.observedGeneration =
      dfz.status.observedGeneration := by
  simp only [hashStep, setCondition]
  split_ifs <;> simp

/-- `recordObservedGen` touches only `status.observedGeneration`. -/
theorem recordObservedGen_fields (dfz : DFZ) :
    (recordObservedGen dfz).namespc = dfz.namespc ∧
    (recordObservedGen dfz).name = dfz.name ∧
    (recordObservedGen dfz).targetName = dfz.targetName ∧
    (recordObservedGen dfz).deleting = dfz.deleting ∧
    (recordObservedGen dfz).finalizers = dfz.finalizers ∧
    (recordObservedGen dfz).annos = dfz.annos ∧
    (recordObservedGen dfz).generation = dfz.generation ∧
    (recordObservedGen dfz).durationSeconds = dfz.durationSeconds ∧
    (recordObservedGen dfz).status.phase = dfz.status.phase ∧
    (recordObservedGen dfz).status.originalReplicas =
      dfz.status.originalReplicas ∧
    (recordObservedGen dfz).status.freezeUntil =
      dfz.status.freezeUntil ∧
    (recordObservedGen dfz).status.targetRef = dfz.status.targetRef ∧
    (recordObservedGen dfz).status.conditions = dfz.status.conditions := by
  unfold recordObservedGen
  split <;> simp

/-- `defaultPhasePending` touches only the phase, and only when empty. -/
theorem defaultPhasePending_fields (dfz : DFZ) :
    (defaultPhasePending dfz).namespc = dfz.namespc ∧
    (defaultPhasePending dfz).name = dfz.name ∧
    (defaultPhasePending dfz).targetName = dfz.targetName ∧
    (defaultPhasePending dfz).deleting = dfz.deleting ∧
    (defaultPhasePending dfz).finalizers = dfz.finalizers ∧
    (defaultPhasePending dfz).annos = dfz.annos ∧
    (defaultPhasePending dfz).generation = dfz.generation ∧
    (defaultPhasePending dfz).durationSeconds = dfz.durationSeconds ∧
    (defaultPhasePending dfz).status.originalReplicas =
      dfz.status.originalReplicas ∧
    (defaultPhasePending dfz).status.freezeUntil =
      dfz.status.freezeUntil ∧
    (defaultPhasePending dfz).status.targetRef = dfz.status.targetRef ∧
    (defaultPhasePending dfz).status.observedGeneration =
      dfz.status.observedGeneration ∧
    (defaultPhasePending dfz).status.conditions =
      dfz.status.conditions ∧
    (dfz.status.phase ≠ Phase.empty →
      (defaultPhasePending dfz).status.phase = dfz.status.phase) := by
  unfold defaultPhasePending setPhase
  split_ifs with h <;> simp_all

/-- The reconcile preamble preserves identity, spec, finalizers,
`originalReplicas`, `freezeUntil`, and any non-empty phase. -/
theorem reconcilePrep_fields (now : Nat) (dfz : DFZ) (deploy : Deployment) :
    (reconcilePrep now dfz deploy).namespc = dfz.namespc ∧
    (reconcilePrep now dfz deploy).name = dfz.name ∧
    (reconcilePrep now dfz deploy).targetName = dfz.targetName ∧
    (reconcilePrep now dfz deploy).deleting = dfz.deleting ∧
    (reconcilePrep now dfz deploy).finalizers = dfz.finalizers ∧
    (reconcilePrep now dfz deploy).durationSeconds =
      dfz.durationSeconds ∧
    (reconcilePrep now dfz deploy).status.originalReplicas =
      dfz.status.originalReplicas ∧
    (reconcilePrep now dfz deploy).status.freezeUntil =
      dfz.status.freezeUntil ∧
    (dfz.status.phase ≠ Phase.empty →
      (reconcilePrep now dfz deploy).status.phase = dfz.status.phase) := by
  obtain ⟨c1, c2, c3, c4, c5, c6, c7, c8, c9, c10, c11, c12, c13⟩ :=
    cacheTargetRef_fields dfz deploy
  obtain ⟨h1, h2, h3, h4, h5, h6, h7, h8, h9, h10, h11, h12⟩ :=
    hashStep_fields now (cacheTargetRef dfz deploy) deploy
  obtain ⟨r1, r2, r3, r4, r5, r6, r7, r8, r9, r10, r11, r12, r13⟩ :=
    recordObservedGen_fields (hashStep now (cacheTargetRef dfz deploy) deploy)
  obtain ⟨d1, d2, d3, d4, d5, d6, d7, d8, d9, d10, d11, d12, d13, d14⟩ :=
    defaultPhasePending_fields
      (recordObservedGen (hashStep now (cacheTargetRef dfz deploy) deploy))
  unfold reconcilePrep
  refine ⟨?_, ?_, ?_, ?_, ?_, ?_, ?_, ?_, ?_⟩
  · rw [d1, r1, h1, c1]
  · rw [d2, r2, h2, c2]
  · rw [d3, r3, h3, c3]
  · rw [d4, r4, h4, c4]
  · rw [d5, r5, h5, c5]
  · rw [d8, r8, h7, c8]
  · rw [d9, r10, h9, c10]
  · rw [d10, r11, h10, c11]
  · intro hph
    have hph' : (recordObservedGen (hashStep now (cacheTargetRef dfz
        deploy) deploy)).status.phase ≠ Phase.empty := by
      rw [r9, h8, c9]; exact hph
    rw [d14 hph', r9, h8, c9]

/-- With a healthy API and a live, UID-consistent target, `reconcileBody`
is the phase router applied after the preamble. -/
theorem reconcileBody_routes (env : ApiEnv) (now : Nat) (dfz : DFZ)
    (deploy : Deployment) (hname : dfz.targetName ≠ "")
    (hread : env.deployReadErr = none)
    (huid : dfz.status.targetRef.uid = "" ∨
      deploy.uid = dfz.status.targetRef.uid)
    (hhash : env.hashPatchErr = none) :
    reconcileBody env now dfz (some deploy) =
      routePhase env now (reconcilePrep now dfz deploy) deploy := by
  have hmis : ¬(dfz.status.targetRef.uid ≠ "" ∧
      deploy.uid ≠ dfz.status.targetRef.uid) := by
    rcases huid with h | h
    · exact fun hc => hc.1 h
    · exact fun hc => hc.2 h
  unfold reconcileBody
  simp only [hname, hread, hmis, if_false, ite_false,
    ensureTemplateHashAnno_ok env now (cacheTargetRef dfz deploy) deploy
      hhash]
  rfl

/-- `recordOriginalReplicas` touches only `status.originalReplicas`, which
it leaves set. -/
theorem recordOriginalReplicas_fields (dfz : DFZ) (snap : Deployment) :
    (recordOriginalReplicas dfz snap).namespc = dfz.namespc ∧
    (recordOriginalReplicas dfz snap).name = dfz.name ∧
    (recordOriginalReplicas dfz snap).targetName = dfz.targetName ∧
    (recordOriginalReplicas dfz snap).deleting = dfz.deleting ∧
    (recordOriginalReplicas dfz snap).finalizers = dfz.finalizers ∧
    (recordOriginalReplicas dfz snap).annos = dfz.annos ∧
    (recordOriginalReplicas dfz snap).durationSeconds =
      dfz.durationSeconds ∧
    (recordOriginalReplicas dfz snap).status.phase = dfz.status.phase ∧
    (recordOriginalReplicas dfz snap).status.freezeUntil =
      dfz.status.freezeUntil ∧
    (recordOriginalReplicas dfz snap).status.conditions =
      dfz.status.conditions ∧
    (recordOriginalReplicas dfz snap).status.originalReplicas ≠ none := by
  unfold recordOriginalReplicas
  split_ifs with h <;> simp_all

/-- The two scale-down outcomes of the freeze pipeline when the target's
`spec.replicas` is null or non-zero. -/
theorem hpf_scaleDown (env : ApiEnv) (now : Nat) (dfz : DFZ)
    (snap cur : Deployment) (evs : List Event)
    (hrep : snap.specReplicas ≠ some 0) :
    (∀ e, env.replicasPatchErr = some e →
      hpfAfterOwnership env now dfz snap cur evs =
        { dfz := setPhase (setCondition now (recordOriginalReplicas dfz snap)
            ConditionType.FreezeProgress ConditionStatus.False
            ConditionReason.AwaitingPDB (msgCannotScaleDownYetFmt e))
            Phase.Freezing,
          deploy := some cur, result := ⟨some requeueMedium⟩,
          isError := false,
          events := recordOriginalReplicasEvents dfz evs }) ∧
    (env.replicasPatchErr = none →
      hpfAfterOwnership env now dfz snap cur evs =
        { dfz := setPhase (setCondition now (recordOriginalReplicas dfz snap)
            ConditionType.FreezeProgress ConditionStatus.False
            ConditionReason.ScalingDown msgScalingDeploymentToZero)
            Phase.Freezing,
          deploy := some { cur with specReplicas := some 0 },
          result := ⟨some requeueShort⟩, isError := false,
          events := recordOriginalReplicasEvents dfz evs }) := by
  constructor
  · intro e herr
    unfold hpfAfterOwnership patchDeploymentReplicas
    rcases hs : snap.specReplicas with _ | v
    · simp [hs, herr]
    · have hv : v ≠ 0 := by
        intro hz
        exact hrep (by rw [hs, hz])
      simp [hs, hv, herr]
  · intro hok
    unfold hpfAfterOwnership patchDeploymentReplicas
    rcases hs : snap.specReplicas with _ | v
    · simp [hs, hok]
    · have hv : v ≠ 0 := by
        intro hz
        exact hrep (by rw [hs, hz])
      simp [hs, hv, hok]

/-! ### Claim C9 -/

/-- C9: in the Pending/Freezing handler with `spec.replicas` null or
non-zero (and ownership not foreign), a failing `setReplicas(0)` yields
`FreezeProgress=False/AwaitingPDB` carrying the error, phase `Freezing`
and the medium 5 s requeue; a successful one yields
`FreezeProgress=False/ScalingDown`, phase `Freezing` and the short 2 s
requeue; in neither case does the phase reach `Frozen`. -/
theorem C9_scale_down (env : ApiEnv) (now : Nat) (dfz : DFZ)
    (deploy : Deployment)
    (howner : annoGet deploy.annos annoFrozenBy = "" ∨
      annoGet deploy.annos annoFrozenBy = dfz.namespc ++ "/" ++ dfz.name)
    (hanno : env.annoPatchErr = none)
    (hrep : deploy.specReplicas ≠ some 0) :
    (∀ e, env.replicasPatchErr = some e →
      hasCond (handlePendingOrFreezing env now dfz deploy).dfz
        ConditionType.FreezeProgress ConditionStatus.False
        ConditionReason.AwaitingPDB (msgCannotScaleDownYetFmt e) ∧
      (handlePendingOrFreezing env now dfz deploy).dfz.status.phase =
        Phase.Freezing ∧
      (handlePendingOrFreezing env now dfz deploy).result.requeueAfter =
        some requeueMedium ∧ requeueMedium = 5) ∧
    (env.replicasPatchErr = none →
      hasCond (handlePendingOrFreezing env now dfz deploy).dfz
        ConditionType.FreezeProgress ConditionStatus.False
        ConditionReason.ScalingDown msgScalingDeploymentToZero ∧
      (handlePendingOrFreezing env now dfz deploy).dfz.status.phase =
        Phase.Freezing ∧
      (handlePendingOrFreezing env now dfz deploy).result.requeueAfter =
        some requeueShort ∧ requeueShort = 2) ∧
    (handlePendingOrFreezing env now dfz deploy).dfz.status.phase ≠
      Phase.Frozen := by
  obtain ⟨dfz1, cur, hred⟩ : ∃ dfz1 cur,
      handlePendingOrFreezing env now dfz deploy =
        hpfAfterOwnership env now dfz1 deploy cur [] := by
    rcases howner with hfb | hfb
    · have hne : ("" : String) ≠ dfz.namespc ++ "/" ++ dfz.name :=
        Ne.symm (owner_ne_empty dfz.namespc dfz.name)
      refine ⟨setCondition now dfz ConditionType.Ownership
        ConditionStatus.True ConditionReason.Acquired
        (msgOwnershipAcquiredFmt dfz.name deploy.namespc deploy.name),
        { deploy with
          annos := annoSet deploy.annos annoFrozenBy
            (dfz.namespc ++ "/" ++ dfz.name) }, ?_⟩
      unfold handlePendingOrFreezing patchDeploymentAnno
      simp [hfb, hne, hanno, owner_ne_empty dfz.namespc dfz.name]
    · refine ⟨setCondition now dfz ConditionType.Ownership
        ConditionStatus.True ConditionReason.Acquired
        msgOwnershipAlreadyHeld, deploy, ?_⟩
      unfold handlePendingOrFreezing
      simp [hfb]
  have hsd := hpf_scaleDown env now dfz1 deploy cur [] hrep
  refine ⟨?_, ?_, ?_⟩
  · intro e herr
    rw [hred, hsd.1 e herr]
    refine ⟨?_, rfl, rfl, rfl⟩
    exact hasCond_setPhase _ _ _ _ _ _ (setCondition_hasCond now _ _ _ _ _)
  · intro hok
    rw [hred, hsd.2 hok]
    refine ⟨?_, rfl, rfl, rfl⟩
    exact hasCond_setPhase _ _ _ _ _ _ (setCondition_hasCond now _ _ _ _ _)
  · rcases hre : env.replicasPatchErr with _ | e
    · rw [hred, hsd.2 hre]
      simp
    · rw [hred, hsd.1 e hre]
      simp

/-- C9 witness: an unowned three-replica target, with both the failing
and the succeeding scale-down environment facts instantiated. -/
theorem C9_witness :
    ((∀ e, envEx.replicasPatchErr = some e →
      hasCond (handlePendingOrFreezing envEx 7 dfzEx depEx).dfz
        ConditionType.FreezeProgress ConditionStatus.False
        ConditionReason.AwaitingPDB (msgCannotScaleDownYetFmt e) ∧
      (handlePendingOrFreezing envEx 7 dfzEx depEx).dfz.status.phase =
        Phase.Freezing ∧
      (handlePendingOrFreezing envEx 7 dfzEx depEx).result.requeueAfter =
        some requeueMedium ∧ requeueMedium = 5) ∧
    (envEx.replicasPatchErr = none →
      hasCond (handlePendingOrFreezing envEx 7 dfzEx depEx).dfz
        ConditionType.FreezeProgress ConditionStatus.False
        ConditionReason.ScalingDown msgScalingDeploymentToZero ∧
      (handlePendingOrFreezing envEx 7 dfzEx depEx).dfz.status.phase =
        Phase.Freezing ∧
      (handlePendingOrFreezing envEx 7 dfzEx depEx).result.requeueAfter =
        some requeueShort ∧ requeueShort = 2) ∧
    (handlePendingOrFreezing envEx 7 dfzEx depEx).dfz.status.phase ≠
      Phase.Frozen) :=
  C9_scale_down envEx 7 dfzEx depEx (Or.inl rfl) rfl (by decide)

/-! ### Claim C10 -/

/-- C10: a reconcile of a Frozen DFZ that still owns its target and whose
`freezeUntil` lies in the future writes nothing to the target Deployment,
leaves the phase at `Frozen`, emits no event, and only schedules a requeue
at `freezeUntil`. -/
theorem C10_frozen_frame (env : ApiEnv) (now : Nat) (dfz : DFZ)
    (deploy : Deployment) (u : Nat)
    (hdel : dfz.deleting = false) (hfin : env.finalizerPatchErr = none)
    (hname : dfz.targetName ≠ "") (hread : env.deployReadErr = none)
    (hhash : env.hashPatchErr = none)
    (huid : dfz.status.targetRef.uid = "" ∨
      deploy.uid = dfz.status.targetRef.uid)
    (hph : dfz.status.phase = Phase.Frozen)
    (hfb : annoGet deploy.annos annoFrozenBy =
      dfz.namespc ++ "/" ++ dfz.name)
    (hfu : dfz.status.freezeUntil = some u) (hlt : now < u) :
    (Reconcile env now dfz (some deploy)).deploy = some deploy ∧
    (Reconcile env now dfz (some deploy)).dfz.status.phase =
      Phase.Frozen ∧
    (Reconcile env now dfz (some deploy)).result.requeueAfter =
      some ((u : Int) - (now : Int)) ∧
    (Reconcile env now dfz (some deploy)).events = [] := by
  obtain ⟨dfz', hok, hsame, _⟩ := ensureFinalizer_ok env dfz hfin
  have hst : dfz'.status = dfz.status := by rw [hsame]
  have hns : dfz'.namespc = dfz.namespc := by rw [hsame]
  have hnm : dfz'.name = dfz.name := by rw [hsame]
  have hout : Reconcile env now dfz (some deploy) =
      reconcileBody env now dfz' (some deploy) := by
    unfold Reconcile
    simp [hdel, hok]
  obtain ⟨p1, p2, p3, p4, p5, p6, p7, p8, p9⟩ :=
    reconcilePrep_fields now dfz' deploy
  have hph' : (reconcilePrep now dfz' deploy).status.phase =
      Phase.Frozen := by
    rw [p9 (by rw [hst, hph]; intro hc; cases hc), hst, hph]
  have hroute : reconcileBody env now dfz' (some deploy) =
      handleFrozen env now (reconcilePrep now dfz' deploy) deploy := by
    rw [reconcileBody_routes env now dfz' deploy
      (by rw [hsame]; exact hname) hread
      (by rw [hst]; exact huid) hhash]
    unfold routePhase
    rw [hph']
  have hfb' : annoGet deploy.annos annoFrozenBy =
      (reconcilePrep now dfz' deploy).namespc ++ "/" ++
        (reconcilePrep now dfz' deploy).name := by
    rw [p1, p2, hns, hnm]
    exact hfb
  have hfu' : (reconcilePrep now dfz' deploy).status.freezeUntil =
      some u := by
    rw [p8, hst]
    exact hfu
  have hfrozen : handleFrozen env now (reconcilePrep now dfz' deploy)
      deploy =
      { dfz := reconcilePrep now dfz' deploy, deploy := some deploy,
        result := ⟨some ((u : Int) - (now : Int))⟩, isError := false,
        events := [] } := by
    unfold handleFrozen
    rw [if_neg (by simpa using hfb'), hfu']
    simp [hlt]
  rw [hout, hroute, hfrozen]
  exact ⟨rfl, hph', rfl, rfl⟩

/-- C10 witness: the sample DFZ frozen until time 9, reconciled at 7. -/
theorem C10_witness :
    (Reconcile envEx 7 { dfzEx with status :=
        ⟨Phase.Frozen, 1, ⟨"demo-deploy", "u1"⟩, some 3, some 9,
          []⟩ }
      (some { depEx with annos :=
        [(annoFrozenBy, "default/freeze-demo")] })).deploy =
      some { depEx with annos :=
        [(annoFrozenBy, "default/freeze-demo")] } ∧
    (Reconcile envEx 7 { dfzEx with status :=
        ⟨Phase.Frozen, 1, ⟨"demo-deploy", "u1"⟩, some 3, some 9,
          []⟩ }
      (some { depEx with annos :=
        [(annoFrozenBy, "default/freeze-demo")] })).dfz.status.phase =
      Phase.Frozen ∧
    (Reconcile envEx 7 { dfzEx with status :=
        ⟨Phase.Frozen, 1, ⟨"demo-deploy", "u1"⟩, some 3, some 9,
          []⟩ }
      (some { depEx with annos :=
        [(annoFrozenBy, "default/freeze-demo")] })).result.requeueAfter =
      some ((9 : Int) - ((7 : Nat) : Int)) ∧
    (Reconcile envEx 7 { dfzEx with status :=
        ⟨Phase.Frozen, 1, ⟨"demo-deploy", "u1"⟩, some 3, some 9,
          []⟩ }
      (some { depEx with annos :=
        [(annoFrozenBy, "default/freeze-demo")] })).events = [] :=
  C10_frozen_frame envEx 7 _ _ 9 rfl rfl (by decide) rfl rfl
    (Or.inr rfl) rfl (by decide) rfl (by decide)


/-! ### Claim C6 -/

/-- C6: `setCondition` replaces in place the first same-type condition when
`(status, reason, message)` differ (with `lastTransitionTime = now`),
refreshes only `lastTransitionTime` when they are equal, and otherwise
appends at the end; consequently a conditions list with at most one entry
per type keeps that property, and the types stay in first-insertion
order. -/
theorem C6_setCondition_spec (now : Nat) (dfz : DFZ) (t : ConditionType)
    (s : ConditionStatus) (r : ConditionReason) (m : String) :
    ((∀ c ∈ dfz.status.conditions, c.type ≠ t) →
      (setCondition now dfz t s r m).status.conditions =
        dfz.status.conditions ++ [⟨t, s, r, m, now⟩]) ∧
    (∀ (pre : List Condition) (c : Condition) (post : List Condition),
      dfz.status.conditions = pre ++ c :: post →
      (∀ b ∈ pre, b.type ≠ t) → c.type = t →
      (setCondition now dfz t s r m).status.conditions =
        pre ++ (if c.status ≠ s ∨ c.reason ≠ r ∨ c.message ≠ m
          then (⟨t, s, r, m, now⟩ : Condition)
          else { c with lastTransitionTime := now }) :: post) ∧
    ((setCondition now dfz t s r m).status.conditions.map Condition.type =
      if t ∈ dfz.status.conditions.map Condition.type
      then dfz.status.conditions.map Condition.type
      else dfz.status.conditions.map Condition.type ++ [t]) ∧
    ((dfz.status.conditions.map Condition.type).Nodup →
      ((setCondition now dfz t s r m).status.conditions.map
        Condition.type).Nodup) := by
  refine ⟨?_, ?_, ?_, ?_⟩
  · intro h
    exact upsertCond_append now ⟨t, s, r, m, now⟩ dfz.status.conditions h
  · intro pre c post hsplit hpre hc
    have := upsertCond_replace now ⟨t, s, r, m, now⟩ c pre post hpre hc
    rw [← hsplit] at this
    exact this
  · exact upsertCond_types now ⟨t, s, r, m, now⟩ dfz.status.conditions
  · intro hnd
    show ((upsertCond now ⟨t, s, r, m, now⟩
      dfz.status.conditions).map Condition.type).Nodup
    rw [upsertCond_types now ⟨t, s, r, m, now⟩ dfz.status.conditions]
    by_cases hmem : t ∈ dfz.status.conditions.map Condition.type
    · simpa [hmem] using hnd
    · simp [hmem, List.nodup_append, hnd]

/-- C6 witness: appending to an empty conditions list. -/
theorem C6_witness :
    (setCondition 5 dfzEx ConditionType.Ownership ConditionStatus.False
      ConditionReason.Lost "m").status.conditions =
      [⟨ConditionType.Ownership, ConditionStatus.False,
        ConditionReason.Lost, "m", 5⟩] := by
  have h := (C6_setCondition_spec 5 dfzEx ConditionType.Ownership
    ConditionStatus.False ConditionReason.Lost "m").1 (by simp [dfzEx])
  simpa [dfzEx] using h

/-! ### Claim C7 -/

/-- C7 counterexample: the claim asserts that two Deployments agreeing on
pod template spec, pod template labels and rollout strategy hash
identically — in particular a Deployment and its `DeepCopy`. On the code
the digest covers the `%v` renderings, which also print the memory
addresses of nested pointer fields, and those differ between an object
and its `DeepCopy` or re-fetch: the two copies below agree on all three
fields yet hash differently. -/
theorem C7_counterexample :
    (({ depEx with fetchAddrs := "0xb" } : Deployment).templateSpec =
        depEx.templateSpec ∧
      ({ depEx with fetchAddrs := "0xb" } : Deployment).templateLabels =
        depEx.templateLabels ∧
      ({ depEx with fetchAddrs := "0xb" } : Deployment).strategy =
        depEx.strategy) ∧
    hashTemplate { depEx with fetchAddrs := "0xb" } ≠
      hashTemplate depEx :=
  ⟨⟨rfl, rfl, rfl⟩, by decide⟩

/-- C7 (amended): `hashTemplate` is a deterministic function of the
`"%v"` renderings it digests — the pod template spec, the pod template
labels and the rollout strategy together with the addresses `%v` embeds
for their nested pointer fields — and changing any of the remaining
modelled fields (name, namespace, uid, replica count, annotations, status
counters) leaves the hash unchanged. It is not invariant under `DeepCopy`
or a re-fetch of the same Deployment, which change the embedded
addresses. -/
theorem C7_hashTemplate_renderings_only :
    (∀ d1 d2 : Deployment, d1.templateSpec = d2.templateSpec →
      d1.templateLabels = d2.templateLabels → d1.strategy = d2.strategy →
      d1.fetchAddrs = d2.fetchAddrs →
      hashTemplate d1 = hashTemplate d2) ∧
    (∀ (d : Deployment) (nm ns uid : String) (reps : Option Int)
      (ann : List (String × String)) (a b c e : Int),
      hashTemplate { d with
        name := nm
        namespc := ns
        uid := uid
        specReplicas := reps
        annos := ann
        statusReplicas := a
        readyReplicas := b
        availableReplicas := c
        updatedReplicas := e } = hashTemplate d) := by
  constructor
  · intro d1 d2 hs hl hst ha
    unfold hashTemplate
    rw [hs, hl, hst, ha]
  · intro d nm ns uid reps ann a b c e
    rfl

/-- C7 witness: a rename plus replica/annotation changes keep the hash. -/
theorem C7_witness :
    hashTemplate { depEx with
      name := "other"
      specReplicas := some 9
      annos := [("k", "v")] } = hashTemplate depEx :=
  C7_hashTemplate_renderings_only.1 _ _ rfl rfl rfl rfl

/-! ### Claim C8 -/

/-- C8: when the target Deployment is not found, `Reconcile` sets the phase
to `phaseForNotFound` — `Pending` exactly when the current phase is empty
or `Pending`, else `Aborted` — adds `TargetFound=False/NotFound`, and
requests the medium (5 s) requeue. -/
theorem C8_target_notfound (env : ApiEnv) (now : Nat) (dfz : DFZ)
    (hdel : dfz.deleting = false) (hfin : env.finalizerPatchErr = none)
    (hname : dfz.targetName ≠ "") (hread : env.deployReadErr = none) :
    (Reconcile env now dfz none).dfz.status.phase = phaseForNotFound dfz ∧
    (phaseForNotFound dfz = Phase.Pending ↔
      (dfz.status.phase = Phase.empty ∨ dfz.status.phase = Phase.Pending)) ∧
    hasCond (Reconcile env now dfz none).dfz ConditionType.TargetFound
      ConditionStatus.False ConditionReason.NotFound
      msgTargetDeploymentNotExist ∧
    (Reconcile env now dfz none).result.requeueAfter = some requeueMedium ∧
    requeueMedium = 5 := by
  obtain ⟨dfz', hok, hsame, _⟩ := ensureFinalizer_ok env dfz hfin
  have hst : dfz'.status = dfz.status := by rw [hsame]
  have hnm : dfz'.targetName = dfz.targetName := by rw [hsame]
  have hout : Reconcile env now dfz none =
      reconcileBody env now dfz' none := by
    unfold Reconcile
    simp [hdel, hok]
  have hbody : reconcileBody env now dfz' none =
      { dfz := setCondition now (setPhase dfz' (phaseForNotFound dfz'))
          ConditionType.TargetFound ConditionStatus.False
          ConditionReason.NotFound msgTargetDeploymentNotExist,
        deploy := none, result := ⟨some requeueMedium⟩, isError := false,
        events := [] } := by
    unfold reconcileBody
    rw [if_neg (by rw [hnm]; exact hname), hread]
  have hpnf : phaseForNotFound dfz' = phaseForNotFound dfz := by
    unfold phaseForNotFound
    rw [hst]
  refine ⟨?_, ?_, ?_, ?_, rfl⟩
  · rw [hout, hbody]
    simp [hpnf]
  · unfold phaseForNotFound
    cases h : dfz.status.phase <;> simp [h]
  · rw [hout, hbody]
    exact setCondition_hasCond now _ _ _ _ _
  · rw [hout, hbody]

/-- C8 witness: reconciling the sample DFZ against a missing target. -/
theorem C8_witness :
    (Reconcile envEx 7 dfzEx none).dfz.status.phase =
        phaseForNotFound dfzEx ∧
      (phaseForNotFound dfzEx = Phase.Pending ↔
        (dfzEx.status.phase = Phase.empty ∨
          dfzEx.status.phase = Phase.Pending)) ∧
      hasCond (Reconcile envEx 7 dfzEx none).dfz ConditionType.TargetFound
        ConditionStatus.False ConditionReason.NotFound
        msgTargetDeploymentNotExist ∧
      (Reconcile envEx 7 dfzEx none).result.requeueAfter =
        some requeueMedium ∧
      requeueMedium = 5 :=
  C8_target_notfound envEx 7 dfzEx rfl rfl (by decide) rfl

/-! ### Claim C3 -/

/-- C3: in the Pending/Freezing handler, a non-empty foreign `frozen-by`
annotation yields `Ownership=False/DeniedAlreadyFrozen` with a message
naming the foreign owner, phase `Denied`, a warning event, and no write to
the target Deployment. -/
theorem C3_foreign_owner_denied (env : ApiEnv) (now : Nat) (dfz : DFZ)
    (deploy : Deployment)
    (h1 : annoGet deploy.annos annoFrozenBy ≠ "")
    (h2 : annoGet deploy.annos annoFrozenBy ≠
      dfz.namespc ++ "/" ++ dfz.name) :
    (handlePendingOrFreezing env now dfz deploy).dfz.status.phase =
        Phase.Denied ∧
      hasCond (handlePendingOrFreezing env now dfz deploy).dfz
        ConditionType.Ownership ConditionStatus.False
        ConditionReason.DeniedAlreadyFrozen
        (msgDeploymentAlreadyOwnedFmt (annoGet deploy.annos annoFrozenBy)) ∧
      (handlePendingOrFreezing env now dfz deploy).deploy = some deploy ∧
      (handlePendingOrFreezing env now dfz deploy).events =
        [⟨EvType.Warning, ReasonOwnershipDenied⟩] := by
  have hbr : handlePendingOrFreezing env now dfz deploy =
      { dfz := setPhase (setCondition now dfz ConditionType.Ownership
          ConditionStatus.False ConditionReason.DeniedAlreadyFrozen
          (msgDeploymentAlreadyOwnedFmt (annoGet deploy.annos annoFrozenBy)))
          Phase.Denied,
        deploy := some deploy, result := ⟨none⟩, isError := false,
        events := [⟨EvType.Warning, ReasonOwnershipDenied⟩] } := by
    unfold handlePendingOrFreezing
    rw [if_pos ⟨h1, h2⟩]
  refine ⟨?_, ?_, ?_, ?_⟩
  · simp [hbr]
  · rw [hbr]
    exact hasCond_setPhase _ _ _ _ _ _ (setCondition_hasCond now _ _ _ _ _)
  · simp [hbr]
  · simp [hbr]

/-- C3 witness: the sample target already owned by `default/other`. -/
theorem C3_witness :
    (handlePendingOrFreezing envEx 7 dfzEx
        { depEx with annos := [(annoFrozenBy, "default/other")] }).dfz.status.phase =
        Phase.Denied ∧
      hasCond (handlePendingOrFreezing envEx 7 dfzEx
        { depEx with annos := [(annoFrozenBy, "default/other")] }).dfz
        ConditionType.Ownership ConditionStatus.False
        ConditionReason.DeniedAlreadyFrozen
        (msgDeploymentAlreadyOwnedFmt (annoGet
          [(annoFrozenBy, "default/other")] annoFrozenBy)) ∧
      (handlePendingOrFreezing envEx 7 dfzEx
        { depEx with annos := [(annoFrozenBy, "default/other")] }).deploy =
        some { depEx with annos := [(annoFrozenBy, "default/other")] } ∧
      (handlePendingOrFreezing envEx 7 dfzEx
        { depEx with annos := [(annoFrozenBy, "default/other")] }).events =
        [⟨EvType.Warning, ReasonOwnershipDenied⟩] :=
  C3_foreign_owner_denied envEx 7 dfzEx
    { depEx with annos := [(annoFrozenBy, "default/other")] }
    (by decide) (by decide)

/-! ### Claim C5 -/

/-- C5: in the Frozen handler, a `frozen-by` annotation differing from the
owner yields `Ownership=False/Lost`, phase `Aborted` and a warning event;
this check is the only exit from `Frozen` inside the handler other than
the deadline: with ownership intact the handler leaves the DFZ untouched
before `freezeUntil` and moves it to `Unfreezing` once the deadline has
passed. -/
theorem C5_frozen_ownership (env : ApiEnv) (now : Nat) (dfz : DFZ)
    (deploy : Deployment) (u : Nat)
    (hph : dfz.status.phase = Phase.Frozen)
    (hfu : dfz.status.freezeUntil = some u) :
    (annoGet deploy.annos annoFrozenBy ≠ dfz.namespc ++ "/" ++ dfz.name →
      (handleFrozen env now dfz deploy).dfz.status.phase = Phase.Aborted ∧
      hasCond (handleFrozen env now dfz deploy).dfz ConditionType.Ownership
        ConditionStatus.False ConditionReason.Lost
        msgOwnershipAnnotationLost ∧
      (handleFrozen env now dfz deploy).events =
        [⟨EvType.Warning, ReasonOwnershipLost⟩]) ∧
    (annoGet deploy.annos annoFrozenBy = dfz.namespc ++ "/" ++ dfz.name →
      now < u →
      (handleFrozen env now dfz deploy).dfz = dfz ∧
      (handleFrozen env now dfz deploy).dfz.status.phase = Phase.Frozen ∧
      (handleFrozen env now dfz deploy).deploy = some deploy) ∧
    (annoGet deploy.annos annoFrozenBy = dfz.namespc ++ "/" ++ dfz.name →
      ¬ now < u →
      (handleFrozen env now dfz deploy).dfz.status.phase =
        Phase.Unfreezing) := by
  refine ⟨?_, ?_, ?_⟩
  · intro hne
    have hbr : handleFrozen env now dfz deploy =
        { dfz := setPhase (setCondition now dfz ConditionType.Ownership
            ConditionStatus.False ConditionReason.Lost
            msgOwnershipAnnotationLost) Phase.Aborted,
          deploy := some deploy, result := ⟨none⟩, isError := false,
          events := [⟨EvType.Warning, ReasonOwnershipLost⟩] } := by
      unfold handleFrozen
      rw [if_pos hne]
    refine ⟨by simp [hbr], ?_, by simp [hbr]⟩
    rw [hbr]
    exact hasCond_setPhase _ _ _ _ _ _ (setCondition_hasCond now _ _ _ _ _)
  · intro heq hlt
    have hbr : handleFrozen env now dfz deploy =
        { dfz := dfz, deploy := some deploy,
          result := ⟨some ((u : Int) - (now : Int))⟩,
          isError := false, events := [] } := by
      unfold handleFrozen
      rw [if_neg (by simpa using heq), hfu]
      simp [hlt]
    exact ⟨by simp [hbr], by simp [hbr]; exact hph, by simp [hbr]⟩
  · intro heq hge
    have hbr : handleFrozen env now dfz deploy =
        { dfz := setPhase dfz Phase.Unfreezing, deploy := some deploy,
          result := ⟨some requeueShort⟩, isError := false,
          events := [⟨EvType.Normal, ReasonUnfreezingStarted⟩] } := by
      unfold handleFrozen
      rw [if_neg (by simpa using heq), hfu]
      simp [hge]
    simp [hbr]

/-- C5 witness: a Frozen DFZ whose ownership annotation was overwritten. -/
theorem C5_witness :
    (annoGet [(annoFrozenBy, "default/other")] annoFrozenBy ≠
        "default" ++ "/" ++ "freeze-demo" →
      (handleFrozen envEx 7 { dfzEx with status :=
          ⟨Phase.Frozen, 1, ⟨"demo-deploy", "u1"⟩, some 3, some 9, []⟩ }
        { depEx with annos :=
          [(annoFrozenBy, "default/other")] }).dfz.status.phase =
        Phase.Aborted ∧
      hasCond (handleFrozen envEx 7 { dfzEx with status :=
          ⟨Phase.Frozen, 1, ⟨"demo-deploy", "u1"⟩, some 3, some 9, []⟩ }
        { depEx with annos := [(annoFrozenBy, "default/other")] }).dfz
        ConditionType.Ownership ConditionStatus.False ConditionReason.Lost
        msgOwnershipAnnotationLost ∧
      (handleFrozen envEx 7 { dfzEx with status :=
          ⟨Phase.Frozen, 1, ⟨"demo-deploy", "u1"⟩, some 3, some 9, []⟩ }
        { depEx with annos := [(annoFrozenBy, "default/other")] }).events =
        [⟨EvType.Warning, ReasonOwnershipLost⟩]) ∧
    (annoGet [(annoFrozenBy, "default/other")] annoFrozenBy =
        "default" ++ "/" ++ "freeze-demo" → 7 < 9 →
      (handleFrozen envEx 7 { dfzEx with status :=
          ⟨Phase.Frozen, 1, ⟨"demo-deploy", "u1"⟩, some 3, some 9, []⟩ }
        { depEx with annos := [(annoFrozenBy, "default/other")] }).dfz =
        { dfzEx with status :=
          ⟨Phase.Frozen, 1, ⟨"demo-deploy", "u1"⟩, some 3, some 9, []⟩ } ∧
      (handleFrozen envEx 7 { dfzEx with status :=
          ⟨Phase.Frozen, 1, ⟨"demo-deploy", "u1"⟩, some 3, some 9, []⟩ }
        { depEx with annos :=
          [(annoFrozenBy, "default/other")] }).dfz.status.phase =
        Phase.Frozen ∧
      (handleFrozen envEx 7 { dfzEx with status :=
          ⟨Phase.Frozen, 1, ⟨"demo-deploy", "u1"⟩, some 3, some 9, []⟩ }
        { depEx with annos := [(annoFrozenBy, "default/other")] }).deploy =
        some { depEx with annos := [(annoFrozenBy, "default/other")] }) ∧
    (annoGet [(annoFrozenBy, "default/other")] annoFrozenBy =
        "default" ++ "/" ++ "freeze-demo" → ¬ 7 < 9 →
      (handleFrozen envEx 7 { dfzEx with status :=
          ⟨Phase.Frozen, 1, ⟨"demo-deploy", "u1"⟩, some 3, some 9, []⟩ }
        { depEx with annos :=
          [(annoFrozenBy, "default/other")] }).dfz.status.phase =
        Phase.Unfreezing) :=
  C5_frozen_ownership envEx 7 { dfzEx with status :=
      ⟨Phase.Frozen, 1, ⟨"demo-deploy", "u1"⟩, some 3, some 9, []⟩ }
    { depEx with annos := [(annoFrozenBy, "default/other")] } 9 rfl rfl

/-! ### Claim C4: the reachability invariant -/

/-- A DFZ whose phase is neither `Frozen` nor `Unfreezing` satisfies the
status invariants vacuously. -/
theorem StatusInv_not_fz (dfz : DFZ)
    (h1 : dfz.status.phase ≠ Phase.Frozen)
    (h2 : dfz.status.phase ≠ Phase.Unfreezing) : StatusInv dfz := by
  constructor
  · rintro (h | h)
    · exact absurd h h1
    · exact absurd h h2
  · intro h
    exact absurd h h1

/-- The invariants depend on three status fields only. -/
theorem StatusInv_parts (a b : DFZ)
    (h1 : a.status.phase = b.status.phase)
    (h2 : a.status.originalReplicas = b.status.originalReplicas)
    (h3 : a.status.freezeUntil = b.status.freezeUntil)
    (hinv : StatusInv b) : StatusInv a := by
  unfold StatusInv at *
  rw [h1, h2, h3]
  exact hinv

/-- The invariants depend only on the status. -/
theorem StatusInv_of_status_eq (a b : DFZ) (h : a.status = b.status)
    (hinv : StatusInv b) : StatusInv a :=
  StatusInv_parts a b (by rw [h]) (by rw [h]) (by rw [h]) hinv

/-- `phaseForNotFound` never produces `Frozen` or `Unfreezing`. -/
theorem phaseForNotFound_ne (dfz : DFZ) :
    phaseForNotFound dfz ≠ Phase.Frozen ∧
    phaseForNotFound dfz ≠ Phase.Unfreezing := by
  unfold phaseForNotFound
  cases dfz.status.phase <;> simp

/-- A successful `ensureFinalizer` keeps the status. -/
theorem ensureFinalizer_status (env : ApiEnv) (dfz dfz' : DFZ)
    (h : ensureFinalizer env dfz = Except.ok dfz') :
    dfz'.status = dfz.status := by
  unfold ensureFinalizer at h
  split_ifs at h with hm
  · cases h
    rfl
  · cases hfe : env.finalizerPatchErr with
    | some e => rw [hfe] at h; cases h
    | none => rw [hfe] at h; cases h; rfl

/-- A successful `removeFinalizer` keeps the status. -/
theorem removeFinalizer_status (env : ApiEnv) (dfz dfz' : DFZ)
    (h : removeFinalizer env dfz = Except.ok dfz') :
    dfz'.status = dfz.status := by
  unfold removeFinalizer at h
  by_cases hm : finalizerName ∉ dfz.finalizers
  · rw [if_pos hm] at h
    cases h
    rfl
  · rw [if_neg hm] at h
    cases hfe : env.removeFinalizerErr with
    | some e => rw [hfe] at h; cases h
    | none => rw [hfe] at h; cases h; rfl

/-- A successful `ensureTemplateHashAnno` is exactly `hashStep`. -/
theorem ensureTemplateHashAnno_ok_shape (env : ApiEnv) (now : Nat)
    (dfz : DFZ) (deploy : Deployment) (d' : DFZ)
    (h : ensureTemplateHashAnno env now dfz deploy = Except.ok d') :
    d' = hashStep now dfz deploy := by
  unfold ensureTemplateHashAnno at h
  split_ifs at h with hp
  · cases hfe : env.hashPatchErr with
    | some e => rw [hfe] at h; cases h
    | none => rw [hfe] at h; cases h; rfl
  · cases h
    rfl

/-- The deletion path never touches the DFZ object. -/
theorem reconcileDelete_dfz (env : ApiEnv) (dfz : DFZ)
    (deploy? : Option Deployment) :
    (reconcileDelete env dfz deploy?).dfz = dfz := by
  simp only [reconcileDelete]
  repeat' split
  all_goals rfl

/-- The freeze pipeline always leaves a phase with the invariants:
`Freezing` on both scale-down outcomes and while draining, or `Frozen`
with `originalReplicas` and `freezeUntil` both set. -/
theorem hpfAfterOwnership_inv (env : ApiEnv) (now : Nat) (dfz : DFZ)
    (snap cur : Deployment) (evs : List Event) :
    StatusInv (hpfAfterOwnership env now dfz snap cur evs).dfz := by
  obtain ⟨-, -, -, -, -, -, -, f8, f9, -, f11⟩ :=
    recordOriginalReplicas_fields dfz snap
  simp only [hpfAfterOwnership]
  split
  · split
    · exact StatusInv_not_fz _ (by simp) (by simp)
    · exact StatusInv_not_fz _ (by simp) (by simp)
  · split
    · constructor
      · intro _
        simpa using f11
      · intro _
        simp
    · exact StatusInv_not_fz _ (by simp) (by simp)

/-- The Pending/Freezing handler preserves the invariants. -/
theorem handlePendingOrFreezing_inv (env : ApiEnv) (now : Nat) (dfz : DFZ)
    (deploy : Deployment) (hinv : StatusInv dfz) :
    StatusInv (handlePendingOrFreezing env now dfz deploy).dfz := by
  simp only [handlePendingOrFreezing]
  split
  · exact StatusInv_not_fz _ (by simp) (by simp)
  · split
    · split
      · exact StatusInv_parts _ dfz rfl rfl rfl hinv
      · exact hpfAfterOwnership_inv env now _ deploy _ []
    · exact hpfAfterOwnership_inv env now _ deploy deploy []

/-- The Frozen handler preserves the invariants. -/
theorem handleFrozen_inv (env : ApiEnv) (now : Nat) (dfz : DFZ)
    (deploy : Deployment) (hinv : StatusInv dfz)
    (hph : dfz.status.phase = Phase.Frozen) :
    StatusInv (handleFrozen env now dfz deploy).dfz := by
  simp only [handleFrozen]
  split
  · exact StatusInv_not_fz _ (by simp) (by simp)
  · split
    · exact hinv
    · constructor
      · intro _
        simpa using hinv.1 (Or.inl hph)
      · intro h
        simp at h

/-- The Unfreezing handler preserves the invariants. -/
theorem handleUnfreezing_inv (env : ApiEnv) (now : Nat) (dfz : DFZ)
    (deploy : Deployment) (hinv : StatusInv dfz)
    (hph : dfz.status.phase = Phase.Unfreezing) :
    StatusInv (handleUnfreezing env now dfz deploy).dfz := by
  simp only [handleUnfreezing]
  split
  · exact StatusInv_parts _ dfz rfl rfl rfl hinv
  · split
    · exact StatusInv_parts _ dfz rfl rfl rfl hinv
    · exact StatusInv_not_fz _ (by simp) (by simp)

/-- `defaultPhasePending` preserves the invariants. -/
theorem defaultPhasePending_inv (dfz : DFZ) (hinv : StatusInv dfz) :
    StatusInv (defaultPhasePending dfz) := by
  unfold defaultPhasePending
  split_ifs with h
  · exact StatusInv_not_fz _ (by simp [setPhase]) (by simp [setPhase])
  · exact hinv

/-- The phase router preserves the invariants. -/
theorem routePhase_inv (env : ApiEnv) (now : Nat) (dfz : DFZ)
    (deploy : Deployment) (hinv : StatusInv dfz) :
    StatusInv (routePhase env now dfz deploy).dfz := by
  cases hph : dfz.status.phase with
  | empty => simp only [routePhase, hph]; exact hinv
  | Pending =>
    simp only [routePhase, hph]
    exact handlePendingOrFreezing_inv env now dfz deploy hinv
  | Freezing =>
    simp only [routePhase, hph]
    exact handlePendingOrFreezing_inv env now dfz deploy hinv
  | Frozen =>
    simp only [routePhase, hph]
    exact handleFrozen_inv env now dfz deploy hinv hph
  | Unfreezing =>
    simp only [routePhase, hph]
    exact handleUnfreezing_inv env now dfz deploy hinv hph
  | Denied => simp only [routePhase, hph]; exact hinv
  | Completed => simp only [routePhase, hph]; exact hinv
  | Aborted => simp only [routePhase, hph]; exact hinv

/-- With the target found, valid, and UID-consistent, `reconcileBody`
reduces to the template-hash step followed by the router. -/
theorem reconcileBody_split (env : ApiEnv) (now : Nat) (dfz : DFZ)
    (deploy : Deployment) (h1 : dfz.targetName ≠ "")
    (hre : env.deployReadErr = none)
    (hmis : ¬(dfz.status.targetRef.uid ≠ "" ∧
      deploy.uid ≠ dfz.status.targetRef.uid)) :
    reconcileBody env now dfz (some deploy) =
      match ensureTemplateHashAnno env now (cacheTargetRef dfz deploy)
          deploy with
      | Except.error e =>
        { dfz := setCondition now (cacheTargetRef dfz deploy)
            ConditionType.Health ConditionStatus.False
            ConditionReason.APIConflict (msgTemplateHashPatchFailedFmt e),
          deploy := some deploy, result := ⟨some requeueShort⟩,
          isError := false, events := [] }
      | Except.ok dfzh =>
        routePhase env now (defaultPhasePending (recordObservedGen dfzh))
          deploy := by
  unfold reconcileBody
  simp only [h1, hre, hmis, ite_false, if_false]

/-- The body of `Reconcile` preserves the invariants. -/
theorem reconcileBody_inv (env : ApiEnv) (now : Nat) (dfz : DFZ)
    (deploy? : Option Deployment) (hinv : StatusInv dfz) :
    StatusInv (reconcileBody env now dfz deploy?).dfz := by
  by_cases h1 : dfz.targetName = ""
  · unfold reconcileBody
    rw [if_pos h1]
    exact StatusInv_not_fz _ (by simp) (by simp)
  · cases hre : env.deployReadErr with
    | some e =>
      unfold reconcileBody
      rw [if_neg h1]
      simp only [hre]
      exact StatusInv_parts _ dfz rfl rfl rfl hinv
    | none =>
      cases deploy? with
      | none =>
        unfold reconcileBody
        rw [if_neg h1]
        simp only [hre]
        obtain ⟨hf, hu⟩ := phaseForNotFound_ne dfz
        exact StatusInv_not_fz _ (by simpa using hf) (by simpa using hu)
      | some deploy =>
        by_cases hmis : dfz.status.targetRef.uid ≠ "" ∧
            deploy.uid ≠ dfz.status.targetRef.uid
        · unfold reconcileBody
          rw [if_neg h1]
          simp only [hre]
          exact StatusInv_not_fz _ (by simp [hmis]) (by simp [hmis])
        · rw [reconcileBody_split env now dfz deploy h1 hre hmis]
          obtain ⟨-, -, -, -, -, -, -, -, c9, c10, c11, -, -⟩ :=
            cacheTargetRef_fields dfz deploy
          have hinvc : StatusInv (cacheTargetRef dfz deploy) :=
            StatusInv_parts _ dfz c9 c10 c11 hinv
          cases hh : ensureTemplateHashAnno env now
              (cacheTargetRef dfz deploy) deploy with
          | error e =>
            exact StatusInv_parts _ (cacheTargetRef dfz deploy) rfl rfl rfl
              hinvc
          | ok dfzh =>
            have hsh := ensureTemplateHashAnno_ok_shape env now
              (cacheTargetRef dfz deploy) deploy dfzh hh
            obtain ⟨-, -, -, -, -, -, -, s8, s9, s10, -, -⟩ :=
              hashStep_fields now (cacheTargetRef dfz deploy) deploy
            have hinvh : StatusInv dfzh := by
              rw [hsh]
              exact StatusInv_parts _ (cacheTargetRef dfz deploy) s8 s9 s10
                hinvc
            obtain ⟨-, -, -, -, -, -, -, -, r9, r10, r11, -, -⟩ :=
              recordObservedGen_fields dfzh
            have hinvr : StatusInv (recordObservedGen dfzh) :=
              StatusInv_parts _ dfzh r9 r10 r11 hinvh
            exact routePhase_inv env now _ deploy
              (defaultPhasePending_inv _ hinvr)

/-- A single reconcile preserves the invariants. -/
theorem Reconcile_inv (env : ApiEnv) (now : Nat) (dfz : DFZ)
    (deploy? : Option Deployment) (hinv : StatusInv dfz) :
    StatusInv (Reconcile env now dfz deploy?).dfz := by
  unfold Reconcile
  by_cases hdel : dfz.deleting = false
  · rw [if_pos hdel]
    cases hef : ensureFinalizer env dfz with
    | error e => exact hinv
    | ok dfz' =>
      exact reconcileBody_inv env now dfz' deploy?
        (StatusInv_of_status_eq dfz' dfz
          (ensureFinalizer_status env dfz dfz' hef) hinv)
  · rw [if_neg hdel]
    have hd := reconcileDelete_dfz env dfz deploy?
    by_cases he : (reconcileDelete env dfz deploy?).isError = true
    · rw [if_pos he]
      rw [hd]
      exact hinv
    · rw [if_neg he]
      cases hrf : removeFinalizer env (reconcileDelete env dfz deploy?).dfz
          with
      | error e =>
        show StatusInv (reconcileDelete env dfz deploy?).dfz
        rw [hd]
        exact hinv
      | ok dfz2 =>
        show StatusInv dfz2
        have := removeFinalizer_status env _ dfz2 hrf
        rw [hd] at this
        exact StatusInv_of_status_eq dfz2 dfz this hinv

/-- C4: every DFZ state reachable by engine reconciles satisfies the data
invariants — `Frozen` or `Unfreezing` implies `status.originalReplicas` is
set, and `Frozen` implies `status.freezeUntil` is set — so the handler
dereferences of `freezeUntil` (Frozen handler) and `originalReplicas`
(Unfreezing handler) never hit a nil pointer on engine-reachable
states. -/
theorem C4_reachable_invariant (dfz : DFZ) (h : EngineReach dfz) :
    StatusInv dfz := by
  induction h with
  | init d hph =>
    refine StatusInv_not_fz d ?_ ?_ <;> rw [hph] <;> intro hc <;> cases hc
  | step d env now dep? hr ih => exact Reconcile_inv env now d dep? ih
  | specEdit d d' hr hst ih => exact StatusInv_of_status_eq d' d hst ih

/-- C4 witness: a freshly created DFZ and the state after one reconcile of
it against a live target. -/
theorem C4_witness :
    StatusInv (Reconcile envEx 0 dfzEx (some depEx)).dfz :=
  C4_reachable_invariant _
    (EngineReach.step dfzEx envEx 0 (some depEx)
      (EngineReach.init dfzEx rfl))

/-! ### Claim C1: terminal phases -/

/-- `ensureFinalizer` is the identity once the finalizer is present. -/
theorem ensureFinalizer_mem (env : ApiEnv) (dfz : DFZ)
    (h : finalizerName ∈ dfz.finalizers) :
    ensureFinalizer env dfz = Except.ok dfz := by
  unfold ensureFinalizer
  simp [h]

/-- The router is a no-op success on terminal phases. -/
theorem routePhase_terminal (env : ApiEnv) (now : Nat) (dfz : DFZ)
    (deploy : Deployment)
    (hterm : dfz.status.phase = Phase.Completed ∨
      dfz.status.phase = Phase.Denied ∨
      dfz.status.phase = Phase.Aborted) :
    routePhase env now dfz deploy =
      { dfz := dfz, deploy := some deploy, result := ⟨none⟩,
        isError := false, events := [] } := by
  rcases hterm with h | h | h <;> simp only [routePhase, h]

/-- What `cacheTargetRef` stores. -/
theorem cacheTargetRef_targetRef (dfz : DFZ) (deploy : Deployment) :
    (cacheTargetRef dfz deploy).status.targetRef =
      (if dfz.status.targetRef.uid = "" then
        (⟨deploy.name, deploy.uid⟩ : StatusTargetRef)
      else dfz.status.targetRef) := by
  unfold cacheTargetRef
  split_ifs <;> rfl

/-- `recordObservedGen` always leaves the observed generation current. -/
theorem recordObservedGen_obsGen (dfz : DFZ) :
    (recordObservedGen dfz).status.observedGeneration = dfz.generation := by
  unfold recordObservedGen
  split_ifs with h
  · rfl
  · exact not_ne_iff.mp h

/-- How `hashStep` treats conditions and annotations, by the three cases
of the stored hash: unset (write it), equal (no-op), diverged (raise the
条件). -/
theorem hashStep_conds (now : Nat) (dfz : DFZ) (deploy : Deployment) :
    ((annoGet dfz.annos annoTemplateHash = "" ∨
        annoGet dfz.annos annoTemplateHash = hashTemplate deploy) →
      (hashStep now dfz deploy).status.conditions =
        dfz.status.conditions) ∧
    (annoGet dfz.annos annoTemplateHash ≠ "" →
      annoGet dfz.annos annoTemplateHash ≠ hashTemplate deploy →
      (hashStep now dfz deploy).status.conditions =
        upsertCond now ⟨ConditionType.SpecChangedDuringFreeze,
          ConditionStatus.True, ConditionReason.Observed,
          msgSpecChangedDuringFreeze, now⟩ dfz.status.conditions) ∧
    ((hashStep now dfz deploy).annos =
      if annoGet dfz.annos annoTemplateHash = "" ∧
          ¬ annoHas dfz.annos annoTemplateHash = true then
        annoSet dfz.annos annoTemplateHash (hashTemplate deploy)
      else dfz.annos) := by
  simp only [hashStep, setCondition]
  refine ⟨?_, ?_, ?_⟩
  · intro h
    by_cases h1 : annoGet dfz.annos annoTemplateHash = ""
    · rw [if_pos h1]
      split <;> rfl
    · rcases h with h | h
      · exact absurd h h1
      · rw [if_neg h1, if_neg (not_ne_iff.mpr h)]
  · intro hne1 hne2
    rw [if_neg hne1, if_pos hne2]
  · by_cases h1 : annoGet dfz.annos annoTemplateHash = ""
    · by_cases h2 : annoHas dfz.annos annoTemplateHash = true
      · simp only [if_pos h1, if_pos h2]
        rw [if_neg (by simp [h2])]
      · simp only [if_pos h1, if_neg h2]
        rw [if_pos ⟨h1, h2⟩]
    · have hrhs : ¬(annoGet dfz.annos annoTemplateHash = "" ∧
          ¬ annoHas dfz.annos annoTemplateHash = true) := by simp [h1]
      rw [if_neg h1, if_neg hrhs]
      split <;> rfl

/-- Upserting a `SpecChangedDuringFreeze` condition is invisible after
filtering that type out: the loop either replaces/refreshes the existing
entry of the type or appends a new one, and the filter drops it either
way. -/
theorem upsertCond_filter_out (now : Nat) (newC : Condition)
    (cs : List Condition)
    (h : newC.type = ConditionType.SpecChangedDuringFreeze) :
    (upsertCond now newC cs).filter notSpecChanged =
      cs.filter notSpecChanged := by
  induction cs with
  | nil =>
    simp [upsertCond, notSpecChanged, h]
  | cons c rest ih =>
    by_cases hc : c.type = newC.type
    · have hcS : c.type = ConditionType.SpecChangedDuringFreeze :=
        hc.trans h
      by_cases hrepl : c.status ≠ newC.status ∨ c.reason ≠ newC.reason ∨
          c.message ≠ newC.message
      · simp [upsertCond, hc, hrepl, List.filter_cons, notSpecChanged, h,
          hcS]
      · simp [upsertCond, hc, hrepl, List.filter_cons, notSpecChanged, h,
          hcS]
    · simp [upsertCond, hc, List.filter_cons, ih]

/-- `hashStep` changes the conditions list at most by upserting the
advisory `SpecChangedDuringFreeze` condition: filtered to the other
condition types, the list is untouched. -/
theorem hashStep_conds_filter (now : Nat) (dfz : DFZ)
    (deploy : Deployment) :
    (hashStep now dfz deploy).status.conditions.filter notSpecChanged =
      dfz.status.conditions.filter notSpecChanged := by
  simp only [hashStep, setCondition]
  split_ifs <;> first
    | rfl
    | exact upsertCond_filter_out now _ _ rfl

/-- Projecting the DFZ out of a literal reconcile result. -/
theorem recOut_mk_dfz (a : DFZ) (b : Option Deployment) (c : CtrlResult)
    (d : Bool) (e : List Event) :
    (RecOut.mk a b c d e).dfz = a := rfl

/-- The second bundle of `reconcilePrep` facts: generation, observed
generation, and where the target ref, conditions and annotations come
from. -/
theorem reconcilePrep_parts2 (now : Nat) (dfz : DFZ) (deploy : Deployment) :
    (reconcilePrep now dfz deploy).generation = dfz.generation ∧
    (reconcilePrep now dfz deploy).status.observedGeneration =
      dfz.generation ∧
    (reconcilePrep now dfz deploy).status.targetRef =
      (cacheTargetRef dfz deploy).status.targetRef ∧
    (reconcilePrep now dfz deploy).status.conditions =
      (hashStep now (cacheTargetRef dfz deploy) deploy).status.conditions ∧
    (reconcilePrep now dfz deploy).annos =
      (hashStep now (cacheTargetRef dfz deploy) deploy).annos := by
  obtain ⟨-, -, -, -, -, c6, c7, -, -, -, -, -, -⟩ :=
    cacheTargetRef_fields dfz deploy
  obtain ⟨-, -, -, -, -, h6, -, -, -, -, h11, -⟩ :=
    hashStep_fields now (cacheTargetRef dfz deploy) deploy
  obtain ⟨-, -, -, -, -, r6, r7, -, -, -, -, r12, r13⟩ :=
    recordObservedGen_fields
      (hashStep now (cacheTargetRef dfz deploy) deploy)
  obtain ⟨-, -, -, -, -, d6, d7, -, -, -, d11, d12, d13, -⟩ :=
    defaultPhasePending_fields (recordObservedGen
      (hashStep now (cacheTargetRef dfz deploy) deploy))
  unfold reconcilePrep
  refine ⟨?_, ?_, ?_, ?_, ?_⟩
  · rw [d7, r7, h6, c7]
  · rw [d12, recordObservedGen_obsGen, h6, c7]
  · rw [d11, r12, h11]
  · rw [d13, r13]
  · rw [d6, r6]

set_option maxHeartbeats 1600000 in
/-- C1 counterexample: the claim fails in two ways. First, a reconcile
finding the target missing moves a `Completed` DFZ to `Aborted`
(`phaseForNotFound` maps every phase past `Pending` to `Aborted`).
Second, two successive reconciles of a terminal DFZ need not produce
identical status modulo `lastTransitionTime`: the first reconcile stores
the template hash, the second one re-fetches the target — the `%v`
renderings now embed different addresses for the nested pointer fields,
the digest diverges although the pod template never changed, and
`SpecChangedDuringFreeze=True/Observed` is raised (the repository's e2e
happy path observes exactly this condition with no template edit). -/
theorem C1_counterexample :
    (dfzTermEx.status.phase = Phase.Completed ∧
      (Reconcile envEx 0 dfzTermEx none).dfz.status.phase =
        Phase.Aborted) ∧
    stripLTT (Reconcile envEx 4 (Reconcile envEx 3 dfzTermEx
        (some depEx)).dfz
      (some { depEx with fetchAddrs := "0xb" })).dfz.status ≠
      stripLTT (Reconcile envEx 3 dfzTermEx (some depEx)).dfz.status :=
  ⟨⟨rfl, rfl⟩, by decide⟩

set_option maxHeartbeats 1600000 in
/-- C1 (amended): a terminal DFZ whose target still exists with a
matching (or not-yet-pinned) UID, reconciled with reads and writes
succeeding, keeps its phase, writes nothing to the target, and requests
no requeue; a second reconcile — against any re-fetch of the target,
whose `%v` renderings may embed different addresses — again keeps the
phase and produces a status identical apart from condition
`lastTransitionTime` and the advisory `SpecChangedDuringFreeze`
condition, which the address-dependent template digest can raise by
itself. A reconcile that finds the target missing or recreated instead
moves even a `Completed` or `Denied` DFZ to `Aborted`. -/
theorem C1_terminal_amended (env : ApiEnv) (now1 now2 : Nat) (dfz : DFZ)
    (deploy : Deployment) (addrs2 : String)
    (hdel : dfz.deleting = false) (hfin : env.finalizerPatchErr = none)
    (hname : dfz.targetName ≠ "") (hread : env.deployReadErr = none)
    (hhash : env.hashPatchErr = none)
    (huid : dfz.status.targetRef.uid = "" ∨
      deploy.uid = dfz.status.targetRef.uid)
    (hterm : dfz.status.phase = Phase.Completed ∨
      dfz.status.phase = Phase.Denied ∨
      dfz.status.phase = Phase.Aborted) :
    (Reconcile env now1 dfz (some deploy)).dfz.status.phase =
      dfz.status.phase ∧
    (Reconcile env now1 dfz (some deploy)).deploy = some deploy ∧
    (Reconcile env now1 dfz (some deploy)).result.requeueAfter = none ∧
    (Reconcile env now2 (Reconcile env now1 dfz (some deploy)).dfz
      (some { deploy with fetchAddrs := addrs2 })).dfz.status.phase =
      dfz.status.phase ∧
    stripLTTSpec (Reconcile env now2 (Reconcile env now1 dfz
        (some deploy)).dfz
      (some { deploy with fetchAddrs := addrs2 })).dfz.status =
      stripLTTSpec (Reconcile env now1 dfz (some deploy)).dfz.status := by
  obtain ⟨dfz', hok, hsame, hmem⟩ := ensureFinalizer_ok env dfz hfin
  have hst : dfz'.status = dfz.status := by rw [hsame]
  have hnm : dfz'.targetName = dfz.targetName := by rw [hsame]
  have hdel' : dfz'.deleting = false := by rw [hsame]; exact hdel
  have hr1 : Reconcile env now1 dfz (some deploy) =
      reconcileBody env now1 dfz' (some deploy) := by
    unfold Reconcile
    simp [hdel, hok]
  have hroutes1 := reconcileBody_routes env now1 dfz' deploy
    (by rw [hnm]; exact hname) hread (by rw [hst]; exact huid) hhash
  set P := reconcilePrep now1 dfz' deploy with hP
  obtain ⟨p1, p2, p3, p4, p5, p6, p7, p8, p9⟩ :=
    reconcilePrep_fields now1 dfz' deploy
  have hphne : dfz'.status.phase ≠ Phase.empty := by
    rw [hst]
    rcases hterm with h | h | h <;> rw [h] <;> intro hc <;> cases hc
  have hphP : P.status.phase = dfz.status.phase := by
    rw [p9 hphne, hst]
  have htermP : P.status.phase = Phase.Completed ∨
      P.status.phase = Phase.Denied ∨ P.status.phase = Phase.Aborted := by
    rw [hphP]
    exact hterm
  have hr1full : Reconcile env now1 dfz (some deploy) =
      { dfz := P, deploy := some deploy, result := ⟨none⟩,
        isError := false, events := [] } := by
    rw [hr1, hroutes1, routePhase_terminal env now1 P deploy htermP]
  have hmemP : finalizerName ∈ P.finalizers := by rw [p5]; exact hmem
  have hdelP : P.deleting = false := by rw [p4]; exact hdel'
  have hr2 : Reconcile env now2 P
        (some { deploy with fetchAddrs := addrs2 }) =
      reconcileBody env now2 P
        (some { deploy with fetchAddrs := addrs2 }) := by
    unfold Reconcile
    simp [hdelP, ensureFinalizer_mem env P hmemP]
  obtain ⟨q1, q2, q3, q4, q5⟩ := reconcilePrep_parts2 now1 dfz' deploy
  have huid' : dfz'.status.targetRef.uid = "" ∨
      deploy.uid = dfz'.status.targetRef.uid := by
    rw [hst]
    exact huid
  have huidP : P.status.targetRef.uid = "" ∨
      deploy.uid = P.status.targetRef.uid := by
    rw [q3, cacheTargetRef_targetRef]
    by_cases hu : dfz'.status.targetRef.uid = ""
    · rw [if_pos hu]
      exact Or.inr rfl
    · rw [if_neg hu]
      rcases huid' with h | h
      · exact absurd h hu
      · exact Or.inr h
  have huidP2 : P.status.targetRef.uid = "" ∨
      ({ deploy with fetchAddrs := addrs2 } : Deployment).uid =
        P.status.targetRef.uid := by
    rcases huidP with h | h
    · exact Or.inl h
    · exact Or.inr h
  have hnameP : P.targetName ≠ "" := by
    rw [p3, hnm]
    exact hname
  have hroutes2 := reconcileBody_routes env now2 P
    { deploy with fetchAddrs := addrs2 } hnameP hread huidP2 hhash
  set Q := reconcilePrep now2 P { deploy with fetchAddrs := addrs2 }
    with hQ
  obtain ⟨s1, s2, s3, s4, s5, s6, s7, s8, s9⟩ :=
    reconcilePrep_fields now2 P { deploy with fetchAddrs := addrs2 }
  obtain ⟨t1, t2, t3, t4, t5⟩ :=
    reconcilePrep_parts2 now2 P { deploy with fetchAddrs := addrs2 }
  have hphneP : P.status.phase ≠ Phase.empty := by
    rcases htermP with h | h | h <;> rw [h] <;> intro hc <;> cases hc
  have htermQ : Q.status.phase = Phase.Completed ∨
      Q.status.phase = Phase.Denied ∨ Q.status.phase = Phase.Aborted := by
    rw [s9 hphneP]
    exact htermP
  have hr2full : Reconcile env now2 P
        (some { deploy with fetchAddrs := addrs2 }) =
      { dfz := Q, deploy := some { deploy with fetchAddrs := addrs2 },
        result := ⟨none⟩, isError := false, events := [] } := by
    rw [hr2, hroutes2, routePhase_terminal env now2 Q
      { deploy with fetchAddrs := addrs2 } htermQ]
  refine ⟨by rw [hr1full]; exact hphP, by rw [hr1full], by rw [hr1full],
    ?_, ?_⟩
  · conv_lhs => rw [hr1full, hr2full, recOut_mk_dfz, s9 hphneP]
    exact hphP
  · conv_lhs => rw [hr1full, hr2full, recOut_mk_dfz]
    conv_rhs => rw [hr1full, recOut_mk_dfz]
    obtain ⟨-, -, -, -, -, -, -, -, -, -, -, cp12, -⟩ :=
      cacheTargetRef_fields P { deploy with fetchAddrs := addrs2 }
    have hQc : Q.status.conditions.filter notSpecChanged =
        P.status.conditions.filter notSpecChanged := by
      have ht4 : Q.status.conditions =
          (hashStep now2
            (cacheTargetRef P { deploy with fetchAddrs := addrs2 })
            { deploy with fetchAddrs := addrs2 }).status.conditions := by
        rw [hQ]
        exact t4
      rw [ht4, hashStep_conds_filter, cp12]
    unfold stripLTTSpec
    simp only [Prod.mk.injEq]
    refine ⟨?_, ?_, ?_, ?_, ?_, ?_⟩
    · rw [s9 hphneP]
    · rw [t2, q1, q2]
    · have htrP : P.status.targetRef =
          (if dfz'.status.targetRef.uid = "" then
            (⟨deploy.name, deploy.uid⟩ : StatusTargetRef)
          else dfz'.status.targetRef) := by
        rw [q3, cacheTargetRef_targetRef]
      have htrQ : Q.status.targetRef =
          (if P.status.targetRef.uid = "" then
            (⟨deploy.name, deploy.uid⟩ : StatusTargetRef)
          else P.status.targetRef) := by
        rw [t3, cacheTargetRef_targetRef]
      by_cases hu : dfz'.status.targetRef.uid = ""
      · have hPuid : P.status.targetRef.uid = deploy.uid := by
          rw [htrP, if_pos hu]
        by_cases hdu : deploy.uid = ""
        · rw [htrQ, if_pos (by rw [hPuid]; exact hdu), htrP, if_pos hu]
        · rw [htrQ, if_neg (by rw [hPuid]; exact hdu)]
      · have hPtr : P.status.targetRef = dfz'.status.targetRef := by
          rw [htrP, if_neg hu]
        rw [htrQ, if_neg (by rw [hPtr]; exact hu)]
    · rw [s7]
    · rw [s8]
    · rw [hQc]

/-- C1 witness for the amended theorem: the sample Completed DFZ with its
live, UID-matching target, reconciled twice; the second reconcile sees a
re-fetch of the target whose renderings embed different addresses. -/
theorem C1_witness :
    (Reconcile envEx 3 dfzTermEx (some depEx)).dfz.status.phase =
      dfzTermEx.status.phase ∧
    (Reconcile envEx 3 dfzTermEx (some depEx)).deploy = some depEx ∧
    (Reconcile envEx 3 dfzTermEx (some depEx)).result.requeueAfter =
      none ∧
    (Reconcile envEx 4 (Reconcile envEx 3 dfzTermEx (some depEx)).dfz
      (some { depEx with fetchAddrs := "0xb" })).dfz.status.phase =
      dfzTermEx.status.phase ∧
    stripLTTSpec (Reconcile envEx 4 (Reconcile envEx 3 dfzTermEx
        (some depEx)).dfz
      (some { depEx with fetchAddrs := "0xb" })).dfz.status =
      stripLTTSpec (Reconcile envEx 3 dfzTermEx (some depEx)).dfz.status :=
  C1_terminal_amended envEx 3 4 dfzTermEx depEx "0xb" rfl rfl (by decide)
    rfl rfl (Or.inr rfl) (Or.inl rfl)

/-! ### Claim C2: the freeze/unfreeze round trip -/

/-- The state after reconcile #1: ownership acquired, original
replicas recorded, target scaled to zero, phase `Freezing`. -/
theorem cycleStep1 (k : Int) (d : Nat) (hk : 0 < k) :
    (cycleR1 k d).dfz =
      ⟨"default", "freeze-demo", "demo-deploy", d, 1,
       [(annoTemplateHash, hashTemplate (cycleDeploy k))], [finalizerName],
       false,
       ⟨Phase.Freezing, 1, ⟨"demo-deploy", "u1"⟩, some k, none,
        [⟨ConditionType.Ownership, ConditionStatus.True,
          ConditionReason.Acquired,
          msgOwnershipAcquiredFmt "freeze-demo" "default" "demo-deploy", 0⟩,
         ⟨ConditionType.FreezeProgress, ConditionStatus.False,
          ConditionReason.ScalingDown, msgScalingDeploymentToZero, 0⟩]⟩⟩ ∧
    (cycleR1 k d).deploy = some
      ⟨"demo-deploy", "default", "u1", some 0,
       [(annoFrozenBy, "default/freeze-demo")], k, k, k, k,
       "ts", "lb", "st", "0xa"⟩ := by
  have hk0 : k ≠ 0 := hk.ne'
  constructor <;>
    simp [cycleR1, cycleDFZ, cycleDeploy, envEx, Reconcile, reconcileBody,
      ensureFinalizer, ensureTemplateHashAnno, hashStep, cacheTargetRef,
      recordObservedGen, defaultPhasePending, routePhase,
      handlePendingOrFreezing, hpfAfterOwnership, recordOriginalReplicas,
      recordOriginalReplicasEvents, patchDeploymentAnno,
      patchDeploymentReplicas, setCondition, setPhase, upsertCond,
      annoGet, annoHas, annoSet, annoDel, finalizerName, annoFrozenBy,
      annoTemplateHash, requeueShort, requeueMedium, defaultReplicasCount,
      msgOwnershipAcquiredFmt, msgScalingDeploymentToZero, List.find?,
      hk, hk0]

set_option maxHeartbeats 1600000 in
theorem cycleStep2 (k : Int) (d : Nat) (hk : 0 < k) :
    (cycleR2 k d).dfz =
      ⟨"default", "freeze-demo", "demo-deploy", d, 1,
       [(annoTemplateHash, hashTemplate (cycleDeploy k))], [finalizerName],
       false,
       ⟨Phase.Frozen, 1, ⟨"demo-deploy", "u1"⟩, some k, some (1 + d),
        [⟨ConditionType.Ownership, ConditionStatus.True,
          ConditionReason.Acquired, msgOwnershipAlreadyHeld, 1⟩,
         ⟨ConditionType.FreezeProgress, ConditionStatus.True,
          ConditionReason.ScaledToZero, msgDeploymentFullyScaledToZero,
          1⟩]⟩⟩ ∧
    (cycleR2 k d).deploy = some
      ⟨"demo-deploy", "default", "u1", some 0,
       [(annoFrozenBy, "default/freeze-demo")], 0, 0, 0, 0,
       "ts", "lb", "st", "0xa"⟩ := by
  obtain ⟨e1a, e1b⟩ := cycleStep1 k d hk
  have hH : hashTemplate (⟨"demo-deploy", "default", "u1", some k, [],
      k, k, k, k, "ts", "lb", "st", "0xa"⟩ : Deployment) ≠ "" :=
    hashTemplate_ne_empty _
  have hh2 : hashTemplate (⟨"demo-deploy", "default", "u1", some 0,
      [("apps.boolfixer.dev/frozen-by", "default/freeze-demo")],
      0, 0, 0, 0, "ts", "lb", "st", "0xa"⟩ : Deployment) =
      hashTemplate (⟨"demo-deploy", "default", "u1", some k, [],
        k, k, k, k, "ts", "lb", "st", "0xa"⟩ : Deployment) := rfl
  constructor <;>
  · rw [cycleR2, e1a, e1b]
    simp [drained, cycleDeploy, envEx, Reconcile, reconcileBody,
      ensureFinalizer, ensureTemplateHashAnno, hashStep, cacheTargetRef,
      recordObservedGen, defaultPhasePending, routePhase,
      handlePendingOrFreezing, hpfAfterOwnership, recordOriginalReplicas,
      recordOriginalReplicasEvents, patchDeploymentAnno,
      patchDeploymentReplicas, setCondition, setPhase, upsertCond,
      annoGet, annoHas, annoSet, annoDel, finalizerName, annoFrozenBy,
      annoTemplateHash, requeueShort, requeueMedium, defaultReplicasCount,
      msgOwnershipAcquiredFmt, msgScalingDeploymentToZero,
      msgOwnershipAlreadyHeld, msgDeploymentFullyScaledToZero, List.find?,
      hH, hh2]

set_option maxHeartbeats 1600000 in
theorem cycleStep3 (k : Int) (d : Nat) (hk : 0 < k) :
    (cycleR3 k d).dfz =
      ⟨"default", "freeze-demo", "demo-deploy", d, 1,
       [(annoTemplateHash, hashTemplate (cycleDeploy k))], [finalizerName],
       false,
       ⟨Phase.Unfreezing, 1, ⟨"demo-deploy", "u1"⟩, some k, some (1 + d),
        [⟨ConditionType.Ownership, ConditionStatus.True,
          ConditionReason.Acquired, msgOwnershipAlreadyHeld, 1⟩,
         ⟨ConditionType.FreezeProgress, ConditionStatus.True,
          ConditionReason.ScaledToZero, msgDeploymentFullyScaledToZero,
          1⟩]⟩⟩ ∧
    (cycleR3 k d).deploy = some
      ⟨"demo-deploy", "default", "u1", some 0,
       [(annoFrozenBy, "default/freeze-demo")], 0, 0, 0, 0,
       "ts", "lb", "st", "0xa"⟩ := by
  obtain ⟨e2a, e2b⟩ := cycleStep2 k d hk
  have hH : hashTemplate (⟨"demo-deploy", "default", "u1", some k, [],
      k, k, k, k, "ts", "lb", "st", "0xa"⟩ : Deployment) ≠ "" :=
    hashTemplate_ne_empty _
  have hh2 : hashTemplate (⟨"demo-deploy", "default", "u1", some 0,
      [("apps.boolfixer.dev/frozen-by", "default/freeze-demo")],
      0, 0, 0, 0, "ts", "lb", "st", "0xa"⟩ : Deployment) =
      hashTemplate (⟨"demo-deploy", "default", "u1", some k, [],
        k, k, k, k, "ts", "lb", "st", "0xa"⟩ : Deployment) := rfl
  have hHd : hashTemplate (⟨"demo-deploy", "default", "u1", some 0,
      [("apps.boolfixer.dev/frozen-by", "default/freeze-demo")],
      0, 0, 0, 0, "ts", "lb", "st", "0xa"⟩ : Deployment) ≠ "" :=
    hashTemplate_ne_empty _
  constructor <;>
  · rw [cycleR3, e2a, e2b]
    simp [cycleDeploy, envEx, Reconcile, reconcileBody,
      ensureFinalizer, ensureTemplateHashAnno, hashStep, cacheTargetRef,
      recordObservedGen, defaultPhasePending, routePhase,
      handleFrozen, setCondition, setPhase, upsertCond,
      annoGet, annoHas, annoSet, annoDel, finalizerName, annoFrozenBy,
      annoTemplateHash, requeueShort, List.find?, hH, hh2, hHd]

set_option maxHeartbeats 1600000 in
theorem cycleStep4 (k : Int) (d : Nat) (hk : 0 < k) :
    (cycleR4 k d).dfz =
      ⟨"default", "freeze-demo", "demo-deploy", d, 1,
       [(annoTemplateHash, hashTemplate (cycleDeploy k))], [finalizerName],
       false,
       ⟨Phase.Completed, 1, ⟨"demo-deploy", "u1"⟩, some k, some (1 + d),
        [⟨ConditionType.Ownership, ConditionStatus.False,
          ConditionReason.Released, msgOwnershipReleasedAfterUnfreeze,
          2 + d⟩,
         ⟨ConditionType.FreezeProgress, ConditionStatus.True,
          ConditionReason.ScaledToZero, msgDeploymentFullyScaledToZero,
          1⟩,
         ⟨ConditionType.UnfreezeProgress, ConditionStatus.True,
          ConditionReason.ScaledUp, msgDeploymentRestoredReplicasFmt k,
          2 + d⟩]⟩⟩ ∧
    (cycleR4 k d).deploy = some
      ⟨"demo-deploy", "default", "u1", some k, [], 0, 0, 0, 0,
       "ts", "lb", "st", "0xa"⟩ ∧
    (cycleR4 k d).result = ⟨none⟩ := by
  obtain ⟨e3a, e3b⟩ := cycleStep3 k d hk
  have hH : hashTemplate (⟨"demo-deploy", "default", "u1", some k, [],
      k, k, k, k, "ts", "lb", "st", "0xa"⟩ : Deployment) ≠ "" :=
    hashTemplate_ne_empty _
  have hh2 : hashTemplate (⟨"demo-deploy", "default", "u1", some 0,
      [("apps.boolfixer.dev/frozen-by", "default/freeze-demo")],
      0, 0, 0, 0, "ts", "lb", "st", "0xa"⟩ : Deployment) =
      hashTemplate (⟨"demo-deploy", "default", "u1", some k, [],
        k, k, k, k, "ts", "lb", "st", "0xa"⟩ : Deployment) := rfl
  have hHd : hashTemplate (⟨"demo-deploy", "default", "u1", some 0,
      [("apps.boolfixer.dev/frozen-by", "default/freeze-demo")],
      0, 0, 0, 0, "ts", "lb", "st", "0xa"⟩ : Deployment) ≠ "" :=
    hashTemplate_ne_empty _
  refine ⟨?_, ?_, ?_⟩ <;>
  · rw [cycleR4, e3a, e3b]
    simp [cycleDeploy, envEx, Reconcile, reconcileBody,
      ensureFinalizer, ensureTemplateHashAnno, hashStep, cacheTargetRef,
      recordObservedGen, defaultPhasePending, routePhase,
      handleUnfreezing, patchDeploymentReplicas, patchDeploymentAnno,
      setCondition, setPhase, upsertCond,
      annoGet, annoHas, annoSet, annoDel, finalizerName, annoFrozenBy,
      annoTemplateHash, requeueShort, requeueMedium,
      msgOwnershipReleasedAfterUnfreeze, msgDeploymentRestoredReplicasFmt,
      msgOwnershipAlreadyHeld, List.find?, hH, hh2, hHd]


/-- C2: for every initial replica count `k > 0` and duration `d`, the
freeze/unfreeze cycle driven by four reconciles (with the target draining
between the first two, every API write succeeding, and the deadline
passing before reconcile #3) runs `Pending -> Freezing -> Frozen ->
Unfreezing -> Completed` and ends with the target back at `k` replicas,
the frozen-by annotation absent, `UnfreezeProgress=True/ScaledUp` carrying
the count, `Ownership=False/Released`, and no further requeue. -/
theorem C2_freeze_unfreeze_roundtrip (k : Int) (d : Nat) (hk : 0 < k) :
    (cycleR1 k d).dfz.status.phase = Phase.Freezing ∧
    (cycleR2 k d).dfz.status.phase = Phase.Frozen ∧
    (cycleR3 k d).dfz.status.phase = Phase.Unfreezing ∧
    (cycleR4 k d).dfz.status.phase = Phase.Completed ∧
    (∃ df, (cycleR4 k d).deploy = some df ∧ df.specReplicas = some k ∧
      annoHas df.annos annoFrozenBy = false) ∧
    hasCond (cycleR4 k d).dfz ConditionType.UnfreezeProgress
      ConditionStatus.True ConditionReason.ScaledUp
      (msgDeploymentRestoredReplicasFmt k) ∧
    hasCond (cycleR4 k d).dfz ConditionType.Ownership
      ConditionStatus.False ConditionReason.Released
      msgOwnershipReleasedAfterUnfreeze ∧
    (cycleR4 k d).result.requeueAfter = none := by
  obtain ⟨e1a, e1b⟩ := cycleStep1 k d hk
  obtain ⟨e2a, e2b⟩ := cycleStep2 k d hk
  obtain ⟨e3a, e3b⟩ := cycleStep3 k d hk
  obtain ⟨e4a, e4b, e4c⟩ := cycleStep4 k d hk
  refine ⟨by rw [e1a], by rw [e2a], by rw [e3a], by rw [e4a], ?_, ?_, ?_,
    by rw [e4c]⟩
  · exact ⟨_, e4b, rfl, rfl⟩
  · rw [e4a]
    exact ⟨⟨ConditionType.UnfreezeProgress, ConditionStatus.True,
      ConditionReason.ScaledUp, msgDeploymentRestoredReplicasFmt k,
      2 + d⟩, by simp, rfl, rfl, rfl, rfl⟩
  · rw [e4a]
    exact ⟨⟨ConditionType.Ownership, ConditionStatus.False,
      ConditionReason.Released, msgOwnershipReleasedAfterUnfreeze,
      2 + d⟩, by simp, rfl, rfl, rfl, rfl⟩

/-- C2 witness: the cycle at three replicas and a one-second window. -/
theorem C2_witness :
    (cycleR1 3 1).dfz.status.phase = Phase.Freezing ∧
    (cycleR2 3 1).dfz.status.phase = Phase.Frozen ∧
    (cycleR3 3 1).dfz.status.phase = Phase.Unfreezing ∧
    (cycleR4 3 1).dfz.status.phase = Phase.Completed ∧
    (∃ df, (cycleR4 3 1).deploy = some df ∧ df.specReplicas = some 3 ∧
      annoHas df.annos annoFrozenBy = false) ∧
    hasCond (cycleR4 3 1).dfz ConditionType.UnfreezeProgress
      ConditionStatus.True ConditionReason.ScaledUp
      (msgDeploymentRestoredReplicasFmt 3) ∧
    hasCond (cycleR4 3 1).dfz ConditionType.Ownership
      ConditionStatus.False ConditionReason.Released
      msgOwnershipReleasedAfterUnfreeze ∧
    (cycleR4 3 1).result.requeueAfter = none :=
  C2_freeze_unfreeze_roundtrip 3 1 (by decide)

end DeploymentFreezer
